import Mathlib

/-!
# HashiCups Terraform provider: provider configuration, coffees data source, order resource

A shallow embedding of `hashicups/provider.go`, `hashicups/coffees_data_source.go` and
`hashicups/order_resource.go`.

Conventions of the embedding:

* a Go method that mutates `resp` through a pointer becomes a function that takes the response
  and returns the response it leaves behind;
* the calls a method makes on external collaborators (the API client, the client constructor,
  the logger, the clock) are recorded in explicit traces that are part of the result;
* a Go `error` is represented by its `Error()` text;
* Go `int` and `int64` are both 64 bit wide on the supported targets, so the conversions
  `int64(x)` and `int(x)` between them are value preserving and both types are embedded as `Int`;
* a `float64` is never computed with by the provider, only passed on, and is embedded as its bit
  pattern;
* a Go slice is embedded as a `List` (the `nil` slice is `[]`).
-/

namespace Hashicups

/-! ## Framework value types (package `types`) -/

/-- Value of the framework type `types.String`: null, unknown, or a known string. -/
inductive TfString where
  | null
  | unknown
  | known (s : String)
  deriving DecidableEq, Repr

/-- Method `IsNull` of `types.String`. -/
def TfString.IsNull : TfString → Bool
  | TfString.null => true
  | _ => false

/-- Method `IsUnknown` of `types.String`. -/
def TfString.IsUnknown : TfString → Bool
  | TfString.unknown => true
  | _ => false

/-- Method `ValueString` of `types.String`: the known string, the empty string otherwise. -/
def TfString.ValueString : TfString → String
  | TfString.known s => s
  | _ => ""

/-- Constructor `types.StringValue`. -/
def StringValue (s : String) : TfString := TfString.known s

/-- Value of the framework type `types.Int64`. -/
inductive TfInt64 where
  | null
  | unknown
  | known (v : Int)
  deriving DecidableEq, Repr

/-- Method `ValueInt64` of `types.Int64`: the known number, zero otherwise. -/
def TfInt64.ValueInt64 : TfInt64 → Int
  | TfInt64.known v => v
  | _ => 0

/-- Constructor `types.Int64Value`. -/
def Int64Value (v : Int) : TfInt64 := TfInt64.known v

/-- A Go `float64`, kept as its IEEE-754 bit pattern; the provider only passes it on. -/
structure GoFloat64 where
  bits : Nat
  deriving DecidableEq, Repr

/-- Value of the framework type `types.Float64`. -/
inductive TfFloat64 where
  | null
  | unknown
  | known (v : GoFloat64)
  deriving DecidableEq, Repr

/-- Constructor `types.Float64Value`. -/
def Float64Value (v : GoFloat64) : TfFloat64 := TfFloat64.known v

/-- Go conversion `int64(x)` of an `int`. -/
def int64OfInt (x : Int) : Int := x

/-- Go conversion `int(x)` of an `int64` (64 bit `int`). -/
def intOfInt64 (x : Int) : Int := x

/-! ## Diagnostics (package `diag`) -/

/-- Severity of a diagnostic. -/
inductive Severity where
  | error
  | warning
  deriving DecidableEq, Repr

/-- A diagnostic: severity, the root attribute it is attached to (if any), summary and
detail. -/
structure Diagnostic where
  severity : Severity
  path : Option String
  summary : String
  detail : String
  deriving DecidableEq, Repr

/-- The collection type `diag.Diagnostics`. -/
abbrev Diagnostics := List Diagnostic

/-- Method `HasError`: some diagnostic of the collection is an error. -/
def HasError (ds : Diagnostics) : Bool :=
  ds.any (fun d => decide (d.severity = Severity.error))

/-- Method `Append` for one diagnostic: a diagnostic already contained is skipped. -/
def Append1 (ds : Diagnostics) (d : Diagnostic) : Diagnostics :=
  if d ∈ ds then ds else ds ++ [d]

/-- Method `Append`: appends the given diagnostics one by one, skipping duplicates. -/
def Append (ds : Diagnostics) (new : Diagnostics) : Diagnostics :=
  new.foldl Append1 ds

/-- Function `diag.NewErrorDiagnostic`. -/
def NewErrorDiagnostic (summary detail : String) : Diagnostic :=
  { severity := Severity.error, path := none, summary := summary, detail := detail }

/-- Function `diag.NewAttributeErrorDiagnostic` with the path `path.Root(attr)`. -/
def NewAttributeErrorDiagnostic (attr summary detail : String) : Diagnostic :=
  { severity := Severity.error, path := some attr, summary := summary, detail := detail }

/-- Method `AddError`. -/
def AddError (ds : Diagnostics) (summary detail : String) : Diagnostics :=
  Append1 ds (NewErrorDiagnostic summary detail)

/-- Method `AddAttributeError` with the path `path.Root(attr)`. -/
def AddAttributeError (ds : Diagnostics) (attr summary detail : String) : Diagnostics :=
  Append1 ds (NewAttributeErrorDiagnostic attr summary detail)

/-! ## Structured logging (package `tflog`) -/

/-- The logging part of a `context.Context`: the fields set on the logger and the field keys
whose values are masked. -/
structure LogCtx where
  fields : List (String × String)
  masked : List String
  deriving DecidableEq, Repr

/-- One emitted log entry. -/
structure LogEntry where
  level : String
  message : String
  fields : List (String × String)
  deriving DecidableEq, Repr

/-- Function `tflog.SetField`: sets the field `key`, replacing an earlier value. -/
def SetField (ctx : LogCtx) (key value : String) : LogCtx :=
  { ctx with fields := ctx.fields.filter (fun kv => decide (kv.1 ≠ key)) ++ [(key, value)] }

/-- Function `tflog.MaskFieldValuesWithFieldKeys` for one key. -/
def MaskFieldValuesWithFieldKeys (ctx : LogCtx) (key : String) : LogCtx :=
  { ctx with masked := ctx.masked ++ [key] }

/-- The entry a `tflog` call emits: the context fields followed by the additional fields, the
value of every masked key replaced by `***`. -/
def emit (ctx : LogCtx) (level message : String) (additional : List (String × String)) :
    LogEntry :=
  { level := level
    message := message
    fields := (ctx.fields ++ additional).map
      (fun kv => if kv.1 ∈ ctx.masked then (kv.1, "***") else kv) }

/-! ## Provider (`provider.go`) -/

/-- The struct `hashicupsProviderModel`. -/
structure hashicupsProviderModel where
  Host : TfString
  Username : TfString
  Password : TfString
  deriving DecidableEq, Repr

/-- A string attribute of the provider schema, `schema.StringAttribute`, with the flags the
provider sets. -/
structure StringAttribute where
  Optional : Bool
  Sensitive : Bool
  deriving DecidableEq, Repr

/-- Method `hashicupsProvider.Schema`: the attributes of the provider schema, by name. -/
def Schema : List (String × StringAttribute) :=
  [("host", { Optional := true, Sensitive := false }),
   ("username", { Optional := true, Sensitive := false }),
   ("password", { Optional := true, Sensitive := true })]

/-- The request `provider.ConfigureRequest`; `Config` holds what `req.Config.Get` yields: the
diagnostics of the decoding and the decoded model. -/
structure ConfigureRequest where
  Config : Diagnostics × hashicupsProviderModel

/-- The response `provider.ConfigureResponse`, with client handles of type `κ`. -/
structure ConfigureResponse (κ : Type) where
  Diagnostics : Diagnostics
  DataSourceData : Option κ
  ResourceData : Option κ

/-- Everything a run of `Configure` leaves behind: the response, the log entries emitted and
the argument triples of the calls made to the client constructor. -/
structure ConfigureRun (κ : Type) where
  resp : ConfigureResponse κ
  logs : List LogEntry
  newClientCalls : List (String × String × String)

/-- Detail text of the diagnostic for an unknown host. -/
def unknownHostDetail : String :=
  "The provider cannot create the Hashicups API client as there is an unknown configuration value for the HashiCups API host. " ++
  "Either target apply the source of the value first, set the value statically in the configuration, or use the HASHICUPS_HOST environment variable."

/-- Detail text of the diagnostic for an unknown username. -/
def unknownUsernameDetail : String :=
  "The provider cannot create the Hashicups API client as there is an unknown configuration value for the HashiCups API username. " ++
  "Either target apply the source of the value first, set the value statically in the configuration, or use the HASHICUPS_USERNAME environment variable."

/-- Detail text of the diagnostic for an unknown password. -/
def unknownPasswordDetail : String :=
  "The provider cannot create the Hashicups API client as there is an unknown configuration value for the HashiCups API password. " ++
  "Either target apply the source of the value first, set the value statically in the configuration, or use the HASHICUPS_PASSWORD environment variable."

/-- Detail text of the diagnostic for a missing host. -/
def missingHostDetail : String :=
  "The provider cannot create the HashiCups API client as there is a missing or empty value for the HashiCups API host. " ++
  "Set the host value in the configuration or use the HASHICUPS_HOST environment variable. " ++
  "If either is already set, ensure the value is not empty."

/-- Detail text of the diagnostic for a missing username. -/
def missingUsernameDetail : String :=
  "The provider cannot create the HashiCups API client as there is a missing or empty value for the HashiCups API username. " ++
  "Set the username value in the configuration or use the HASHICUPS_USERNAME environment variable. " ++
  "If either is already set, ensure the value is not empty."

/-- Detail text of the diagnostic for a missing password. -/
def missingPasswordDetail : String :=
  "The provider cannot create the HashiCups API client as there is a missing or empty value for the HashiCups API password. " ++
  "Set the password value in the configuration or use the HASHICUPS_PASSWORD environment variable. " ++
  "If either is already set, ensure the value is not empty."

/-- Detail text of the diagnostic for a failed client construction with error text `err`. -/
def clientErrorDetail (err : String) : String :=
  "An unexpected error ocurred while creating the HashiCups API client. " ++
  "If the error is not clear, please contact the provider developers.\n\n" ++
  "HashiCups Client Error: " ++ err

/-- Method `hashicupsProvider.Configure`. `env` is `os.Getenv`, `NewClient` is
`hashicups.NewClient`, `ctx` the logging context of the call. -/
def Configure {κ : Type} (env : String → String)
    (NewClient : String → String → String → Except String κ)
    (ctx : LogCtx) (req : ConfigureRequest) (resp : ConfigureResponse κ) : ConfigureRun κ :=
  let logs := [emit ctx "info" "Configuring HashiCups Client" []]
  -- Retrieve provider data from configuration
  let config := req.Config.2
  let diags := req.Config.1
  let resp := { resp with Diagnostics := Append resp.Diagnostics diags }
  if HasError resp.Diagnostics then
    { resp := resp, logs := logs, newClientCalls := [] }
  else
  -- a configured value must be a known value
  let resp :=
    if config.Host.IsUnknown then
      { resp with Diagnostics :=
                      AddAttributeError resp.Diagnostics "host" "Unknown HashiCups API Host" unknownHostDetail }
    else resp
  let resp :=
    if config.Username.IsUnknown then
      { resp with Diagnostics :=
                      AddAttributeError resp.Diagnostics "username" "Unknown HashiCups API Username" unknownUsernameDetail }
    else resp
  let resp :=
    if config.Password.IsUnknown then
      { resp with Diagnostics :=
                      AddAttributeError resp.Diagnostics "password" "Unknown HashiCups API Password" unknownPasswordDetail }
    else resp
  if HasError resp.Diagnostics then
    { resp := resp, logs := logs, newClientCalls := [] }
  else
  -- default to the environment variables, override with the configuration value if set
  let host := env "HASHICUPS_HOST"
  let username := env "HASHICUPS_USERNAME"
  let password := env "HASHICUPS_PASSWORD"
  let host := if !config.Host.IsNull then config.Host.ValueString else host
  let username := if !config.Username.IsNull then config.Username.ValueString else username
  let password := if !config.Password.IsNull then config.Password.ValueString else password
  -- missing values
  let resp :=
    if host = "" then
      { resp with Diagnostics :=
                      AddAttributeError resp.Diagnostics "host" "Missing HashiCups API Host" missingHostDetail }
    else resp
  let resp :=
    if username = "" then
      { resp with Diagnostics :=
                      AddAttributeError resp.Diagnostics "username" "Missing HashiCups API Username" missingUsernameDetail }
    else resp
  let resp :=
    if password = "" then
      { resp with Diagnostics :=
                      AddAttributeError resp.Diagnostics "password" "Missing HashiCups API Password" missingPasswordDetail }
    else resp
  if HasError resp.Diagnostics then
    { resp := resp, logs := logs, newClientCalls := [] }
  else
  let ctx := SetField ctx "hashicups_host" host
  let ctx := SetField ctx "hashicups_username" username
  let ctx := SetField ctx "hashicups_password" password
  -- mask the password in logs
  let ctx := MaskFieldValuesWithFieldKeys ctx "hashicups_password"
  let logs := logs ++ [emit ctx "debug" "Creating Hashicups Client" []]
  -- create the client from the configuration values
  match NewClient host username password with
  | Except.error err =>
    { resp := { resp with Diagnostics :=
                           AddError resp.Diagnostics "Unable to Create HashiCups API Client"
                             (clientErrorDetail err) },
      logs := logs,
      newClientCalls := [(host, username, password)] }
  | Except.ok client =>
    { resp := { resp with DataSourceData := some client, ResourceData := some client },
      logs := logs ++ [emit ctx "info" "Configured HashiCups Client" [("success", "true")]],
      newClientCalls := [(host, username, password)] }

/-! ## The API client (package `hashicups` of hashicups-client-go) -/

/-- Modelled from the spec: an ingredient record of the upstream API, of which the provider
reads the id only. -/
structure Ingredient where
  ID : Int
  deriving DecidableEq, Repr

/-- Modelled from the spec: the coffee record of the upstream API, with the fields
id, name, teaser, description, price, image and the ordered ingredient list. -/
structure Coffee where
  ID : Int
  Name : String
  Teaser : String
  Description : String
  Price : GoFloat64
  Image : String
  Ingredient : List Ingredient
  deriving DecidableEq, Repr

/-- Modelled from the spec: an order line of the upstream API, a coffee and a quantity. -/
structure OrderItem where
  Coffee : Coffee
  Quantity : Int
  deriving DecidableEq, Repr

/-- Modelled from the spec: the order record of the upstream API, the assigned id and the
ordered item list. -/
structure Order where
  ID : Int
  Items : List OrderItem
  deriving DecidableEq, Repr

/-- One call issued to the upstream API, with its arguments. -/
inductive ApiCall where
  | GetCoffees
  | CreateOrder (items : List OrderItem)
  | GetOrder (orderID : String)
  | UpdateOrder (orderID : String) (items : List OrderItem)
  deriving DecidableEq, Repr

/-- Modelled from the spec: the upstream collaborator API, list-coffees, create-order(items),
get-order(id) and update-order(id, items). Each method runs against an upstream in a state of
type `σ` and yields the result or the error text, and the state the upstream is left in. -/
structure Client (σ : Type) where
  GetCoffees : σ → Except String (List Coffee) × σ
  CreateOrder : List OrderItem → σ → Except String Order × σ
  GetOrder : String → σ → Except String Order × σ
  UpdateOrder : String → List OrderItem → σ → Except String Order × σ

/-- A run-time fault that aborts a method instead of letting it return. -/
inductive Fault where
  | nilPointerDereference
  | indexOutOfRange
  deriving DecidableEq, Repr

/-- How a method ends: it returns, or it is aborted by a run-time fault. -/
inductive Outcome (α : Type) where
  | returned (a : α)
  | fault (f : Fault)

/-- What a method that returned leaves behind: the response, the upstream calls it issued in
order, and the state of the upstream. -/
structure Run (σ ρ : Type) where
  resp : ρ
  calls : List ApiCall
  upstream : σ

/-! ## State of a data source or resource (package `tfsdk`) -/

/-- The value `tfsdk.State` for a model type `μ`. `Raw` is the stored value (`none`: null).
`Schema` stands for the conversion of a model value against the schema: the diagnostics that
conversion reports. -/
structure State (μ : Type) where
  Raw : Option μ
  Schema : μ → Diagnostics

/-- Method `State.Set`: converts the value and stores it unless the conversion reports an
error; returns the diagnostics of the conversion. -/
def State.Set {μ : Type} (s : State μ) (val : μ) : Diagnostics × State μ :=
  let diags := s.Schema val
  if HasError diags then (diags, s) else (diags, { s with Raw := some val })

/-! ## Clock (package `time`) -/

/-- A reading of `time.Now()`, broken down in its zone. -/
structure GoTime where
  weekday : Fin 7
  day : Nat
  month : Fin 12
  year : Nat
  hour : Nat
  minute : Nat
  second : Nat
  zone : String
  deriving DecidableEq, Repr

/-- Full English weekday name, Sunday first. -/
def weekdayName (d : Fin 7) : String :=
  match d.val with
  | 0 => "Sunday"
  | 1 => "Monday"
  | 2 => "Tuesday"
  | 3 => "Wednesday"
  | 4 => "Thursday"
  | 5 => "Friday"
  | _ => "Saturday"

/-- Three letter English month name, January first. -/
def monthAbbr (m : Fin 12) : String :=
  match m.val with
  | 0 => "Jan"
  | 1 => "Feb"
  | 2 => "Mar"
  | 3 => "Apr"
  | 4 => "May"
  | 5 => "Jun"
  | 6 => "Jul"
  | 7 => "Aug"
  | 8 => "Sep"
  | 9 => "Oct"
  | 10 => "Nov"
  | _ => "Dec"

/-- Two decimal digits of a number, zero padded. -/
def pad2 (n : Nat) : String :=
  Nat.repr (n % 100 / 10) ++ Nat.repr (n % 10)

/-- The call `t.Format(time.RFC850)`, layout `Monday, 02-Jan-06 15:04:05 MST`. -/
def FormatRFC850 (t : GoTime) : String :=
  weekdayName t.weekday ++ ", " ++ pad2 t.day ++ "-" ++ monthAbbr t.month ++ "-" ++
    pad2 t.year ++ " " ++ pad2 t.hour ++ ":" ++ pad2 t.minute ++ ":" ++ pad2 t.second ++
    " " ++ t.zone

/-- Function `strconv.Itoa`: the decimal string of an integer. -/
def Itoa (i : Int) : String :=
  if i < 0 then "-" ++ Nat.repr i.natAbs else Nat.repr i.natAbs

/-! ## Coffees data source (`coffees_data_source.go`) -/

/-- The struct `coffeesIngredientsModel`. -/
structure coffeesIngredientsModel where
  ID : TfInt64
  deriving DecidableEq, Repr

/-- The struct `coffeesModel`. -/
structure coffeesModel where
  ID : TfInt64
  Name : TfString
  Teaser : TfString
  Description : TfString
  Price : TfFloat64
  Image : TfString
  Ingredients : List coffeesIngredientsModel
  deriving DecidableEq, Repr

/-- The struct `coffeesDataSourceModel`. -/
structure coffeesDataSourceModel where
  ID : TfString
  Coffees : List coffeesModel
  deriving DecidableEq, Repr

/-- The struct `coffeesDataSource`: the client is `none` until the data source is configured. -/
structure coffeesDataSource (σ : Type) where
  client : Option (Client σ)

/-- The response `datasource.ReadResponse`. -/
structure DataSourceReadResponse where
  State : State coffeesDataSourceModel
  Diagnostics : Diagnostics

/-- Body of the outer loop of `coffeesDataSource.Read` for one coffee: the coffee state with
its ingredients appended one by one. -/
def coffeeStateOf (coffee : Coffee) : coffeesModel :=
  let coffeeState : coffeesModel :=
    { ID := Int64Value (int64OfInt coffee.ID)
      Name := StringValue coffee.Name
      Teaser := StringValue coffee.Teaser
      Description := StringValue coffee.Description
      Price := Float64Value coffee.Price
      Image := StringValue coffee.Image
      Ingredients := [] }
  coffee.Ingredient.foldl
    (fun coffeeState ingredient =>
      { coffeeState with
        Ingredients := coffeeState.Ingredients ++ [{ ID := Int64Value (int64OfInt ingredient.ID) }] })
    coffeeState

/-- Method `coffeesDataSource.Read` (its request argument is not used by the code). -/
def coffeesDataSource.Read {σ : Type} (d : coffeesDataSource σ)
    (resp : DataSourceReadResponse) (s : σ) : Outcome (Run σ DataSourceReadResponse) :=
  let state : coffeesDataSourceModel := { ID := TfString.null, Coffees := [] }
  match d.client with
  | none => Outcome.fault Fault.nilPointerDereference
  | some client =>
    match client.GetCoffees s with
    | (Except.error err, s1) =>
      Outcome.returned
        { resp := { resp with
                    Diagnostics := AddError resp.Diagnostics "Unable to read HashiCups Coffees" err },
          calls := [ApiCall.GetCoffees],
          upstream := s1 }
    | (Except.ok coffees, s1) =>
      -- map response body to model
      let state := coffees.foldl
        (fun state coffee => { state with Coffees := state.Coffees ++ [coffeeStateOf coffee] })
        state
      let state := { state with ID := StringValue "placeholder" }
      -- set state
      let r := resp.State.Set state
      Outcome.returned
        { resp := { State := r.2, Diagnostics := Append resp.Diagnostics r.1 },
          calls := [ApiCall.GetCoffees],
          upstream := s1 }

/-! ## Order resource (`order_resource.go`) -/

/-- The struct `orderItemCoffeeModel`. -/
structure orderItemCoffeeModel where
  ID : TfInt64
  Name : TfString
  Teaser : TfString
  Description : TfString
  Price : TfFloat64
  Image : TfString
  deriving DecidableEq, Repr

/-- The struct `orderItemModel`. -/
structure orderItemModel where
  Coffee : orderItemCoffeeModel
  Quantity : TfInt64
  deriving DecidableEq, Repr

/-- The struct `orderResourceModel`. -/
structure orderResourceModel where
  ID : TfString
  Items : List orderItemModel
  LastUpdated : TfString
  deriving DecidableEq, Repr

/-- The struct `orderResource`: the client is `none` until the resource is configured. -/
structure orderResource (σ : Type) where
  client : Option (Client σ)

/-- The request `resource.CreateRequest`; `Plan` holds what `req.Plan.Get` yields. -/
structure CreateRequest where
  Plan : Diagnostics × orderResourceModel

/-- The response `resource.CreateResponse`. -/
structure CreateResponse where
  State : State orderResourceModel
  Diagnostics : Diagnostics

/-- The request `resource.ReadRequest`; `State` holds what `req.State.Get` yields. -/
structure ReadRequest where
  State : Diagnostics × orderResourceModel

/-- The response `resource.ReadResponse`. -/
structure ReadResponse where
  State : State orderResourceModel
  Diagnostics : Diagnostics

/-- The request `resource.UpdateRequest`; `Plan` holds what `req.Plan.Get` yields. -/
structure UpdateRequest where
  Plan : Diagnostics × orderResourceModel

/-- The response `resource.UpdateResponse`. -/
structure UpdateResponse where
  State : State orderResourceModel
  Diagnostics : Diagnostics

/-- The zero value of the Go struct `hashicups.Coffee`. -/
def zeroCoffee : Coffee :=
  { ID := 0, Name := "", Teaser := "", Description := "", Price := { bits := 0 }, Image := "",
    Ingredient := [] }

/-- The loop `for _, item := range plan.Items` of `Create` and of `Update`, which generates the
API request body from the plan. -/
def requestItems (planItems : List orderItemModel) : List OrderItem :=
  planItems.foldl
    (fun items item =>
      items ++ [{ Coffee := { zeroCoffee with ID := intOfInt64 item.Coffee.ID.ValueInt64 },
                  Quantity := intOfInt64 item.Quantity.ValueInt64 }])
    []

/-- The composite literal `orderItemModel` that `Create`, `Read` and `Update` build from one
item of the response. -/
def orderItemModelOf (orderItem : OrderItem) : orderItemModel :=
  { Coffee :=
      { ID := Int64Value (int64OfInt orderItem.Coffee.ID)
        Name := StringValue orderItem.Coffee.Name
        Description := StringValue orderItem.Coffee.Description
        Teaser := StringValue orderItem.Coffee.Teaser
        Price := Float64Value orderItem.Coffee.Price
        Image := StringValue orderItem.Coffee.Image }
    Quantity := Int64Value (int64OfInt orderItem.Quantity) }

/-- The loop `for orderItemIndex, orderItem := range order.Items` of `Create`, from the index
`idx` on: each round assigns `plan.Items[orderItemIndex]`, stamps `plan.LastUpdated` with the
reading number `idx` of the clock, sets the state, and returns if the response has an error. -/
def createLoop (clock : Nat → GoTime) :
    List OrderItem → Nat → orderResourceModel → CreateResponse → Outcome CreateResponse
  | [], _, _, resp => Outcome.returned resp
  | orderItem :: rest, idx, plan, resp =>
    if idx < plan.Items.length then
      let plan := { plan with Items := plan.Items.set idx (orderItemModelOf orderItem) }
      let plan := { plan with LastUpdated := StringValue (FormatRFC850 (clock idx)) }
      -- set state to fully populated data
      let r := resp.State.Set plan
      let resp : CreateResponse :=
        { State := r.2, Diagnostics := Append resp.Diagnostics r.1 }
      if HasError resp.Diagnostics then Outcome.returned resp
      else createLoop clock rest (idx + 1) plan resp
    else Outcome.fault Fault.indexOutOfRange

/-- Method `orderResource.Create`. `clock n` is the reading number `n` of `time.Now()` during
the call. -/
def orderResource.Create {σ : Type} (r : orderResource σ) (clock : Nat → GoTime)
    (req : CreateRequest) (resp : CreateResponse) (s : σ) : Outcome (Run σ CreateResponse) :=
  -- retrieve values from plan
  let plan := req.Plan.2
  let resp := { resp with Diagnostics := Append resp.Diagnostics req.Plan.1 }
  if HasError resp.Diagnostics then
    Outcome.returned { resp := resp, calls := [], upstream := s }
  else
  -- generate API request body from plan
  let items := requestItems plan.Items
  -- create new order
  match r.client with
  | none => Outcome.fault Fault.nilPointerDereference
  | some client =>
    match client.CreateOrder items s with
    | (Except.error err, s1) =>
      Outcome.returned
        { resp := { resp with
                    Diagnostics := AddError resp.Diagnostics "Error creating order"
                      ("Could not create order, unexpected error: " ++ err) },
          calls := [ApiCall.CreateOrder items],
          upstream := s1 }
    | (Except.ok order, s1) =>
      -- map response body to schema and populate computed attribute values
      let plan := { plan with ID := StringValue (Itoa order.ID) }
      match createLoop clock order.Items 0 plan resp with
      | Outcome.fault f => Outcome.fault f
      | Outcome.returned resp =>
        Outcome.returned { resp := resp, calls := [ApiCall.CreateOrder items], upstream := s1 }

/-- The loop `for _, item := range order.Items` of `Read` and of `Update`, which appends the
model of each response item to the emptied item list. -/
def refreshedItems (orderItems : List OrderItem) : List orderItemModel :=
  orderItems.foldl (fun items item => items ++ [orderItemModelOf item]) []

/-- Method `orderResource.Read`. -/
def orderResource.Read {σ : Type} (r : orderResource σ)
    (req : ReadRequest) (resp : ReadResponse) (s : σ) : Outcome (Run σ ReadResponse) :=
  -- get current state
  let state := req.State.2
  let resp := { resp with Diagnostics := Append resp.Diagnostics req.State.1 }
  if HasError resp.Diagnostics then
    Outcome.returned { resp := resp, calls := [], upstream := s }
  else
  -- get refreshed order value
  match r.client with
  | none => Outcome.fault Fault.nilPointerDereference
  | some client =>
    match client.GetOrder state.ID.ValueString s with
    | (Except.error err, s1) =>
      Outcome.returned
        { resp := { resp with
                    Diagnostics := AddError resp.Diagnostics "Error Reading Hashicups Order"
                      ("Could not read Hashicups Order ID " ++ state.ID.ValueString ++ ": " ++
                        err) },
          calls := [ApiCall.GetOrder state.ID.ValueString],
          upstream := s1 }
    | (Except.ok order, s1) =>
      -- overwrite items with refreshed state
      let state := { state with Items := refreshedItems order.Items }
      -- set refreshed state
      let w := resp.State.Set state
      Outcome.returned
        { resp := { State := w.2, Diagnostics := Append resp.Diagnostics w.1 },
          calls := [ApiCall.GetOrder state.ID.ValueString],
          upstream := s1 }

/-- Method `orderResource.Update`. `clock 0` is the reading of `time.Now()` during the call. -/
def orderResource.Update {σ : Type} (r : orderResource σ) (clock : Nat → GoTime)
    (req : UpdateRequest) (resp : UpdateResponse) (s : σ) : Outcome (Run σ UpdateResponse) :=
  -- retrieve values from plan
  let plan := req.Plan.2
  let resp := { resp with Diagnostics := Append resp.Diagnostics req.Plan.1 }
  if HasError resp.Diagnostics then
    Outcome.returned { resp := resp, calls := [], upstream := s }
  else
  -- generate API request body from plan
  let hashicupsItems := requestItems plan.Items
  -- update existing order
  match r.client with
  | none => Outcome.fault Fault.nilPointerDereference
  | some client =>
    match client.UpdateOrder plan.ID.ValueString hashicupsItems s with
    | (Except.error err, s1) =>
      Outcome.returned
        { resp := { resp with
                    Diagnostics := AddError resp.Diagnostics "Error Updating HashiCups Order"
                      ("Could not update order, unexpected error: " ++ err) },
          calls := [ApiCall.UpdateOrder plan.ID.ValueString hashicupsItems],
          upstream := s1 }
    | (Except.ok _, s1) =>
      -- fetch updated items from GetOrder as UpdateOrder items are not populated
      match client.GetOrder plan.ID.ValueString s1 with
      | (Except.error err, s2) =>
        Outcome.returned
          { resp := { resp with
                      Diagnostics := AddError resp.Diagnostics "Error Reading HashiCups Order"
                        ("Could not read order, unexpected error: " ++ err) },
            calls := [ApiCall.UpdateOrder plan.ID.ValueString hashicupsItems,
                      ApiCall.GetOrder plan.ID.ValueString],
            upstream := s2 }
      | (Except.ok order, s2) =>
        -- update resource state with updated items and timestamp
        let plan := { plan with Items := refreshedItems order.Items }
        let plan := { plan with LastUpdated := StringValue (FormatRFC850 (clock 0)) }
        let w := resp.State.Set plan
        Outcome.returned
          { resp := { State := w.2, Diagnostics := Append resp.Diagnostics w.1 },
            calls := [ApiCall.UpdateOrder plan.ID.ValueString hashicupsItems,
                      ApiCall.GetOrder plan.ID.ValueString],
            upstream := s2 }

/-- The request `resource.DeleteRequest`; `State` holds what `req.State.Get` would yield. -/
structure DeleteRequest where
  State : Diagnostics × orderResourceModel

/-- The response `resource.DeleteResponse`. -/
structure DeleteResponse where
  State : State orderResourceModel
  Diagnostics : Diagnostics

/-- Method `orderResource.Delete`: the body is empty. -/
def orderResource.Delete {σ : Type} (_r : orderResource σ)
    (_req : DeleteRequest) (resp : DeleteResponse) (s : σ) : Outcome (Run σ DeleteResponse) :=
  Outcome.returned { resp := resp, calls := [], upstream := s }

/-! ## Statement vocabulary -/

/-- The precedence rule as the specification words it: the configuration value when it is
non-null, the environment variable otherwise. -/
def precedence (configured : TfString) (envValue : String) : String :=
  if configured.IsNull then envValue else configured.ValueString

/-- A text contains another text. -/
def containsText (text part : String) : Prop :=
  ∃ before after : String, text = before ++ part ++ after

/-- The field-for-field image of an upstream order line in the local shape, as the
specification words it: coffee id, name, teaser, description, price, image and the quantity,
all known. -/
def fieldForField (item : OrderItem) : orderItemModel :=
  { Coffee :=
      { ID := TfInt64.known item.Coffee.ID
        Name := TfString.known item.Coffee.Name
        Teaser := TfString.known item.Coffee.Teaser
        Description := TfString.known item.Coffee.Description
        Price := TfFloat64.known item.Coffee.Price
        Image := TfString.known item.Coffee.Image }
    Quantity := TfInt64.known item.Quantity }

/-- The run a method returned with, if it returned. -/
def Outcome.run? {α : Type} : Outcome α → Option α
  | Outcome.returned a => some a
  | Outcome.fault _ => none

/-- The order state a create call left in its response, if the call returned. -/
def createdState {σ : Type} (o : Outcome (Run σ CreateResponse)) : Option orderResourceModel :=
  o.run?.bind (fun run => run.resp.State.Raw)

/-- The request line for one planned item, as the specification words it: the coffee id and
the quantity of the item, every other coffee field zero-valued. -/
def requestedLine (item : orderItemModel) : OrderItem :=
  { Coffee :=
      { ID := item.Coffee.ID.ValueInt64
        Name := ""
        Teaser := ""
        Description := ""
        Price := { bits := 0 }
        Image := ""
        Ingredient := [] }
    Quantity := item.Quantity.ValueInt64 }

/-- The error text of a failed result, nothing for a success. -/
def failureText {κ : Type} : Except String κ → Option String
  | Except.error err => some err
  | Except.ok _ => none

/-! ## Concrete inputs -/

/-- An environment that defines the three variables of the provider. -/
def sampleEnv (name : String) : String :=
  if name = "HASHICUPS_HOST" then "http://env"
  else if name = "HASHICUPS_USERNAME" then "education"
  else if name = "HASHICUPS_PASSWORD" then "test123"
  else ""

/-- A client constructor that always succeeds; the handle records the arguments. -/
def sampleNewClient (host username password : String) : Except String (List String) :=
  Except.ok [host, username, password]

/-- A logging context without fields. -/
def sampleCtx : LogCtx := { fields := [], masked := [] }

/-- A fresh configure response. -/
def freshConfigureResponse : ConfigureResponse (List String) :=
  { Diagnostics := [], DataSourceData := none, ResourceData := none }

/-- A configure request whose configuration decoded to the given three values. -/
def configureRequestOf (host username password : TfString) : ConfigureRequest :=
  { Config := ([], { Host := host, Username := username, Password := password }) }

/-- An API client whose four methods answer with fixed results; the upstream state counts the
calls received. -/
def fixedClient (coffees : Except String (List Coffee))
    (created got updated : Except String Order) : Client Nat :=
  { GetCoffees := fun n => (coffees, n + 1)
    CreateOrder := fun _ n => (created, n + 1)
    GetOrder := fun _ n => (got, n + 1)
    UpdateOrder := fun _ _ n => (updated, n + 1) }

/-- A state that holds no value yet and whose conversion never reports a diagnostic. -/
def nullState (μ : Type) : State μ := { Raw := none, Schema := fun _ => [] }

/-- A coffee of the upstream catalog. -/
def sampleCoffee : Coffee :=
  { ID := 3, Name := "Nomadicano", Teaser := "Drink one today", Description := "",
    Price := { bits := 150 }, Image := "/nomad.png", Ingredient := [{ ID := 1 }, { ID := 3 }] }

/-- An order line as the upstream answers it. -/
def sampleOrderItem : OrderItem := { Coffee := sampleCoffee, Quantity := 2 }

/-- An item as a plan carries it: coffee id and quantity given, the other fields unknown. -/
def plannedItem (coffeeID quantity : Int) : orderItemModel :=
  { Coffee := { ID := TfInt64.known coffeeID, Name := TfString.unknown,
                Teaser := TfString.unknown, Description := TfString.unknown,
                Price := TfFloat64.unknown, Image := TfString.unknown },
    Quantity := TfInt64.known quantity }

/-- A reading of the clock. -/
def sampleTime : GoTime :=
  { weekday := 3, day := 4, month := 10, year := 2026, hour := 17, minute := 45, second := 0,
    zone := "UTC" }

/-- A fresh create response. -/
def freshCreateResponse : CreateResponse :=
  { State := nullState orderResourceModel, Diagnostics := [] }

/-- A create request whose plan decoded to the given items, id and timestamp not yet known. -/
def createRequestOf (items : List orderItemModel) : CreateRequest :=
  { Plan := ([], { ID := TfString.unknown, Items := items, LastUpdated := TfString.unknown }) }

/-- An order resource whose client answers create-order with the given result. -/
def resourceCreating (created : Except String Order) : orderResource Nat :=
  { client := some (fixedClient (Except.error "") created (Except.error "") (Except.error "")) }

/-- A read or update request payload: a stored order with id 42 and one planned item. -/
def sampleStoredOrder : orderResourceModel :=
  { ID := TfString.known "42", Items := [plannedItem 3 2, plannedItem 1 1],
    LastUpdated := TfString.known "Tuesday, 03-Nov-26 09:00:00 UTC" }

/-- An order resource whose client answers get-order and update-order with the given
results. -/
def resourceAnswering (got updated : Except String Order) : orderResource Nat :=
  { client := some (fixedClient (Except.error "") (Except.error "") got updated) }

/-- A client constructor that signs in: it accepts the password `test123` only and fails with
the answer of the upstream otherwise. -/
def checkingNewClient (host username password : String) : Except String (List String) :=
  if password = "test123" then Except.ok [host, username]
  else Except.error "status: 401, body: Invalid credentials"

/-! ## Lemmas on diagnostics and loops -/

theorem HasError_append (ds es : Diagnostics) :
    HasError (ds ++ es) = (HasError ds || HasError es) := by
  simp [HasError]

theorem HasError_Append1 (ds : Diagnostics) (d : Diagnostic) :
    HasError (Append1 ds d) = (HasError ds || decide (d.severity = Severity.error)) := by
  unfold Append1
  split
  · next h =>
    cases hd : decide (d.severity = Severity.error)
    · simp
    · have : HasError ds = true := by
        simp only [HasError, List.any_eq_true]
        exact ⟨d, h, hd⟩
      simp [this]
  · simp [HasError]

theorem HasError_Append (new ds : Diagnostics) :
    HasError (Append ds new) = (HasError ds || HasError new) := by
  induction new generalizing ds with
  | nil => simp [Append, HasError]
  | cons d rest ih =>
    have h := ih (Append1 ds d)
    simp only [Append, List.foldl_cons] at h ⊢
    rw [h, HasError_Append1]
    simp [HasError, Bool.or_assoc]

theorem not_mem_of_HasError_false (ds : Diagnostics) (d : Diagnostic)
    (h : HasError ds = false) (hd : d.severity = Severity.error) : d ∉ ds := by
  intro hm
  have : HasError ds = true := by
    simp only [HasError, List.any_eq_true]
    exact ⟨d, hm, by simp [hd]⟩
  rw [h] at this
  exact Bool.noConfusion this

theorem AddError_of_no_error (ds : Diagnostics) (summary detail : String)
    (h : HasError ds = false) :
    AddError ds summary detail = ds ++ [NewErrorDiagnostic summary detail] := by
  unfold AddError Append1
  rw [if_neg (not_mem_of_HasError_false ds _ h rfl)]

theorem NewAttributeErrorDiagnostic_severity (attr summary detail : String) :
    (NewAttributeErrorDiagnostic attr summary detail).severity = Severity.error := rfl

theorem attr_ne_of_ne (a b sa sb da db : String) (h : a ≠ b) :
    (NewAttributeErrorDiagnostic a sa da = NewAttributeErrorDiagnostic b sb db) = False := by
  simp [NewAttributeErrorDiagnostic, h]

theorem foldl_append_singleton {α β : Type} (f : α → β) (l : List α) (init : List β) :
    l.foldl (fun acc x => acc ++ [f x]) init = init ++ l.map f := by
  induction l generalizing init with
  | nil => simp
  | cons x xs ih => simp [ih]

theorem ingredients_foldl (l : List Ingredient) (cs : coffeesModel) :
    l.foldl
        (fun coffeeState ingredient =>
          { coffeeState with
            Ingredients :=
              coffeeState.Ingredients ++ [{ ID := Int64Value (int64OfInt ingredient.ID) }] })
        cs =
      { cs with
        Ingredients :=
          cs.Ingredients ++
            l.map (fun g => ({ ID := Int64Value (int64OfInt g.ID) } : coffeesIngredientsModel)) } := by
  induction l generalizing cs with
  | nil => simp
  | cons x xs ih => simp [ih]

theorem coffees_foldl (l : List Coffee) (st : coffeesDataSourceModel) :
    l.foldl
        (fun state coffee => { state with Coffees := state.Coffees ++ [coffeeStateOf coffee] })
        st =
      { st with Coffees := st.Coffees ++ l.map coffeeStateOf } := by
  induction l generalizing st with
  | nil => simp
  | cons x xs ih => simp [ih]

theorem State_Set_of_no_error {μ : Type} (st : State μ) (val : μ)
    (h : HasError (st.Schema val) = false) :
    st.Set val = (st.Schema val, { st with Raw := some val }) := by
  simp [State.Set, h]

theorem containsText_append_left (before part : String) :
    containsText (before ++ part) part :=
  ⟨before, "", by simp⟩

theorem containsText_self (part : String) : containsText part part :=
  ⟨"", "", by simp⟩

theorem orderItemModelOf_eq_fieldForField : orderItemModelOf = fieldForField := by
  funext item
  rfl

theorem refreshedItems_eq_map (orderItems : List OrderItem) :
    refreshedItems orderItems = orderItems.map fieldForField := by
  simp [refreshedItems, foldl_append_singleton, orderItemModelOf_eq_fieldForField]

theorem set_take_drop {α : Type} (L : List α) (n k : Nat) (x : α) (h : n < L.length) :
    (L.set n x).take (n + 1) = L.take n ++ [x] ∧
      (L.set n x).drop (n + 1 + k) = L.drop (n + 1 + k) := by
  constructor
  · rw [List.set_eq_take_append_cons_drop, if_pos h]
    have hl : (List.take n L).length = n := by simp; omega
    rw [List.take_append_eq_append_take, hl]
    simp
  · exact List.drop_set_of_lt x L (by omega)

theorem createLoop_spec (clock : Nat → GoTime) (rest : List OrderItem) :
    ∀ (idx : Nat) (plan : orderResourceModel) (resp : CreateResponse),
      (∀ m, HasError (resp.State.Schema m) = false) → HasError resp.Diagnostics = false →
      idx + rest.length ≤ plan.Items.length →
      ∃ resp2, createLoop clock rest idx plan resp = Outcome.returned resp2 ∧
        resp2.State.Schema = resp.State.Schema ∧ HasError resp2.Diagnostics = false ∧
        (rest = [] → resp2 = resp) ∧
        (rest ≠ [] → resp2.State.Raw = some
          { ID := plan.ID
            Items := plan.Items.take idx ++ rest.map orderItemModelOf ++
              plan.Items.drop (idx + rest.length)
            LastUpdated := StringValue (FormatRFC850 (clock (idx + rest.length - 1))) }) := by
  induction rest with
  | nil =>
    intro idx plan resp _ hE _
    exact ⟨resp, rfl, rfl, hE, fun _ => rfl, fun h => absurd rfl h⟩
  | cons x rest ih =>
    intro idx plan resp hS hE hlen
    have hlt : idx < plan.Items.length := by
      simp only [List.length_cons] at hlen
      omega
    have hE1 : HasError (Append resp.Diagnostics (resp.State.Schema
        { plan with Items := plan.Items.set idx (orderItemModelOf x),
                    LastUpdated := StringValue (FormatRFC850 (clock idx)) })) = false := by
      rw [HasError_Append, hE, hS]
      rfl
    obtain ⟨resp2, h1, h2, h3, h4, h5⟩ := ih (idx + 1)
      { plan with Items := plan.Items.set idx (orderItemModelOf x),
                  LastUpdated := StringValue (FormatRFC850 (clock idx)) }
      { State := { resp.State with Raw := some (
          { plan with Items := plan.Items.set idx (orderItemModelOf x),
                      LastUpdated := StringValue (FormatRFC850 (clock idx)) }) },
        Diagnostics := Append resp.Diagnostics (resp.State.Schema
          { plan with Items := plan.Items.set idx (orderItemModelOf x),
                      LastUpdated := StringValue (FormatRFC850 (clock idx)) }) }
      hS hE1 (by simp only [List.length_set, List.length_cons] at hlen ⊢; omega)
    refine ⟨resp2, ?_, h2, h3, fun h => by simp at h, fun _ => ?_⟩
    · simp only [createLoop, if_pos hlt, State_Set_of_no_error _ _ (hS _), hE1,
        Bool.false_eq_true, if_false]
      exact h1
    · by_cases hr : rest = []
      · subst hr
        rw [h4 rfl]
        simp [List.set_eq_take_append_cons_drop, hlt]
      · rw [h5 hr]
        have hs := set_take_drop plan.Items idx rest.length (orderItemModelOf x) hlt
        simp only [hs.1, hs.2, List.length_cons, List.map_cons]
        have e1 : idx + 1 + rest.length = idx + (rest.length + 1) := by omega
        have e2 : idx + 1 + rest.length - 1 = idx + (rest.length + 1) - 1 := by omega
        simp [e1]

theorem requestItems_eq_map (planItems : List orderItemModel) :
    requestItems planItems = planItems.map requestedLine := by
  unfold requestItems
  rw [foldl_append_singleton]
  rfl

theorem createLoop_returned_or_fault (clock : Nat → GoTime) (rest : List OrderItem) :
    ∀ (idx : Nat) (plan : orderResourceModel) (resp : CreateResponse),
      (∃ resp2, createLoop clock rest idx plan resp = Outcome.returned resp2) ∨
      (createLoop clock rest idx plan resp = Outcome.fault Fault.indexOutOfRange ∧
        plan.Items.length < idx + rest.length) := by
  induction rest with
  | nil =>
    intro idx plan resp
    exact Or.inl ⟨resp, rfl⟩
  | cons x rest ih =>
    intro idx plan resp
    by_cases hlt : idx < plan.Items.length
    · simp only [createLoop, if_pos hlt]
      split
      · exact Or.inl ⟨_, rfl⟩
      · rcases ih (idx + 1) _ _ with h | ⟨h1, h2⟩
        · exact Or.inl h
        · refine Or.inr ⟨h1, ?_⟩
          simp only [List.length_set, List.length_cons] at h2 ⊢
          omega
    · refine Or.inr ⟨?_, ?_⟩
      · simp only [createLoop, if_neg hlt]
      · simp only [List.length_cons]
        omega

theorem createLoop_fault_of_gt (clock : Nat → GoTime) (rest : List OrderItem) :
    ∀ (idx : Nat) (plan : orderResourceModel) (resp : CreateResponse),
      (∀ m, HasError (resp.State.Schema m) = false) → HasError resp.Diagnostics = false →
      idx ≤ plan.Items.length → plan.Items.length < idx + rest.length →
      createLoop clock rest idx plan resp = Outcome.fault Fault.indexOutOfRange := by
  induction rest with
  | nil =>
    intro idx plan resp _ _ h1 h2
    simp only [List.length_nil] at h2
    omega
  | cons x rest ih =>
    intro idx plan resp hS hE h1 h2
    by_cases hlt : idx < plan.Items.length
    · have hE1 : HasError (Append resp.Diagnostics (resp.State.Schema
          { plan with Items := plan.Items.set idx (orderItemModelOf x),
                      LastUpdated := StringValue (FormatRFC850 (clock idx)) })) = false := by
        rw [HasError_Append, hE, hS]
        rfl
      simp only [createLoop, if_pos hlt, State_Set_of_no_error _ _ (hS _), hE1,
        Bool.false_eq_true, if_false]
      apply ih
      · exact hS
      · exact hE1
      · simp only [List.length_set]
        omega
      · simp only [List.length_set, List.length_cons] at h2 ⊢
        omega
    · simp only [createLoop, if_neg hlt]

theorem emit_masked_password (ctx : LogCtx) (password level message : String)
    (additional : List (String × String)) :
    emit (MaskFieldValuesWithFieldKeys (SetField ctx "hashicups_password" password)
        "hashicups_password") level message additional =
      emit (MaskFieldValuesWithFieldKeys (SetField ctx "hashicups_password" "")
        "hashicups_password") level message additional := by
  simp only [emit, MaskFieldValuesWithFieldKeys, SetField, List.map_append, List.map_cons,
    List.map_nil, List.mem_append, List.mem_singleton, or_true, if_true]

theorem ite_else_congr {α β : Type} (f : α → β) (c : Prop) [Decidable c] (a b1 b2 : α)
    (h : ¬c → f b1 = f b2) : f (if c then a else b1) = f (if c then a else b2) := by
  by_cases hc : c
  · simp only [if_pos hc]
  · simp only [if_neg hc]
    exact h hc

theorem FormatRFC850_ne_empty (t : GoTime) : FormatRFC850 t ≠ "" := by
  intro h
  have hl := congrArg String.length h
  simp only [FormatRFC850, String.length_append] at hl
  have h2 : (", " : String).length = 2 := rfl
  have h0 : ("" : String).length = 0 := rfl
  rw [h2, h0] at hl
  omega

/-! ## Provider configuration -/

/-- C1: when the configuration decodes without error and host, username and password are each
known (null or a string), and the three values resolved by precedence (configuration value when
non-null, else `HASHICUPS_HOST`, `HASHICUPS_USERNAME`, `HASHICUPS_PASSWORD`) are all non-empty,
`Configure` calls the client constructor exactly once, with exactly the three resolved values;
and when the constructor succeeds the client it returned is published as `DataSourceData` and as
`ResourceData` and `Configure` adds no diagnostic. -/
theorem Configure_resolves_by_precedence_and_publishes {κ : Type} (env : String → String)
    (NewClient : String → String → String → Except String κ) (ctx : LogCtx)
    (req : ConfigureRequest) (resp : ConfigureResponse κ)
    (hget : HasError (Append resp.Diagnostics req.Config.1) = false)
    (hHost : req.Config.2.Host.IsUnknown = false)
    (hUsername : req.Config.2.Username.IsUnknown = false)
    (hPassword : req.Config.2.Password.IsUnknown = false)
    (hh : precedence req.Config.2.Host (env "HASHICUPS_HOST") ≠ "")
    (hu : precedence req.Config.2.Username (env "HASHICUPS_USERNAME") ≠ "")
    (hp : precedence req.Config.2.Password (env "HASHICUPS_PASSWORD") ≠ "") :
    (Configure env NewClient ctx req resp).newClientCalls =
        [(precedence req.Config.2.Host (env "HASHICUPS_HOST"),
          precedence req.Config.2.Username (env "HASHICUPS_USERNAME"),
          precedence req.Config.2.Password (env "HASHICUPS_PASSWORD"))] ∧
      ∀ client : κ,
        NewClient (precedence req.Config.2.Host (env "HASHICUPS_HOST"))
            (precedence req.Config.2.Username (env "HASHICUPS_USERNAME"))
            (precedence req.Config.2.Password (env "HASHICUPS_PASSWORD")) = Except.ok client →
          (Configure env NewClient ctx req resp).resp.DataSourceData = some client ∧
          (Configure env NewClient ctx req resp).resp.ResourceData = some client ∧
          (Configure env NewClient ctx req resp).resp.Diagnostics =
            Append resp.Diagnostics req.Config.1 := by
  have eh : (if (!req.Config.2.Host.IsNull) = true then req.Config.2.Host.ValueString
      else env "HASHICUPS_HOST") = precedence req.Config.2.Host (env "HASHICUPS_HOST") := by
    unfold precedence; cases req.Config.2.Host.IsNull <;> simp
  have eu : (if (!req.Config.2.Username.IsNull) = true then req.Config.2.Username.ValueString
      else env "HASHICUPS_USERNAME") =
        precedence req.Config.2.Username (env "HASHICUPS_USERNAME") := by
    unfold precedence; cases req.Config.2.Username.IsNull <;> simp
  have ep : (if (!req.Config.2.Password.IsNull) = true then req.Config.2.Password.ValueString
      else env "HASHICUPS_PASSWORD") =
        precedence req.Config.2.Password (env "HASHICUPS_PASSWORD") := by
    unfold precedence; cases req.Config.2.Password.IsNull <;> simp
  simp only [Configure, hget, hHost, hUsername, hPassword, eh, eu, ep, if_neg hh, if_neg hu,
    if_neg hp, Bool.false_eq_true, if_false]
  constructor
  · cases NewClient _ _ _ <;> rfl
  · intro client hc
    rw [hc]
    exact ⟨rfl, rfl, rfl⟩

/-- Witness for C1: the host comes from the configuration and overrides the environment,
username and password come from the environment. -/
theorem Configure_resolves_by_precedence_and_publishes_witness :
    (Configure sampleEnv sampleNewClient sampleCtx
        (configureRequestOf (TfString.known "http://localhost:19090") TfString.null
          TfString.null) freshConfigureResponse).newClientCalls =
        [("http://localhost:19090", "education", "test123")] ∧
      (Configure sampleEnv sampleNewClient sampleCtx
        (configureRequestOf (TfString.known "http://localhost:19090") TfString.null
          TfString.null) freshConfigureResponse).resp.DataSourceData =
        some ["http://localhost:19090", "education", "test123"] :=
  have h := Configure_resolves_by_precedence_and_publishes sampleEnv sampleNewClient sampleCtx
    (configureRequestOf (TfString.known "http://localhost:19090") TfString.null TfString.null)
    freshConfigureResponse (by decide) (by decide) (by decide) (by decide) (by decide)
    (by decide) (by decide)
  ⟨h.1, (h.2 ["http://localhost:19090", "education", "test123"] rfl).1⟩

/-- C2: when the configuration decodes without error, all three fields are known, and at least
one of the three values resolved by precedence is the empty string, `Configure` adds exactly
the `Missing ...` attribute error of each field that resolved empty (host, username, password in
this order, each at the root path of its field) and nothing for a field that resolved non-empty,
never calls the client constructor, and leaves `DataSourceData` and `ResourceData` as they
were. -/
theorem Configure_missing_values {κ : Type} (env : String → String)
    (NewClient : String → String → String → Except String κ) (ctx : LogCtx)
    (req : ConfigureRequest) (resp : ConfigureResponse κ)
    (hget : HasError (Append resp.Diagnostics req.Config.1) = false)
    (hHost : req.Config.2.Host.IsUnknown = false)
    (hUsername : req.Config.2.Username.IsUnknown = false)
    (hPassword : req.Config.2.Password.IsUnknown = false)
    (hempty : precedence req.Config.2.Host (env "HASHICUPS_HOST") = "" ∨
      precedence req.Config.2.Username (env "HASHICUPS_USERNAME") = "" ∨
      precedence req.Config.2.Password (env "HASHICUPS_PASSWORD") = "") :
    (Configure env NewClient ctx req resp).resp.Diagnostics =
        Append resp.Diagnostics req.Config.1 ++
          ((if precedence req.Config.2.Host (env "HASHICUPS_HOST") = "" then
              [NewAttributeErrorDiagnostic "host" "Missing HashiCups API Host"
                missingHostDetail] else []) ++
           (if precedence req.Config.2.Username (env "HASHICUPS_USERNAME") = "" then
              [NewAttributeErrorDiagnostic "username" "Missing HashiCups API Username"
                missingUsernameDetail] else []) ++
           (if precedence req.Config.2.Password (env "HASHICUPS_PASSWORD") = "" then
              [NewAttributeErrorDiagnostic "password" "Missing HashiCups API Password"
                missingPasswordDetail] else [])) ∧
      (Configure env NewClient ctx req resp).newClientCalls = [] ∧
      (Configure env NewClient ctx req resp).resp.DataSourceData = resp.DataSourceData ∧
      (Configure env NewClient ctx req resp).resp.ResourceData = resp.ResourceData := by
  have eh : (if (!req.Config.2.Host.IsNull) = true then req.Config.2.Host.ValueString
      else env "HASHICUPS_HOST") = precedence req.Config.2.Host (env "HASHICUPS_HOST") := by
    unfold precedence; cases req.Config.2.Host.IsNull <;> simp
  have eu : (if (!req.Config.2.Username.IsNull) = true then req.Config.2.Username.ValueString
      else env "HASHICUPS_USERNAME") =
        precedence req.Config.2.Username (env "HASHICUPS_USERNAME") := by
    unfold precedence; cases req.Config.2.Username.IsNull <;> simp
  have ep : (if (!req.Config.2.Password.IsNull) = true then req.Config.2.Password.ValueString
      else env "HASHICUPS_PASSWORD") =
        precedence req.Config.2.Password (env "HASHICUPS_PASSWORD") := by
    unfold precedence; cases req.Config.2.Password.IsNull <;> simp
  have hb : ∀ d : Diagnostic, d.severity = Severity.error →
      d ∉ Append resp.Diagnostics req.Config.1 :=
    fun d hd => not_mem_of_HasError_false _ d hget hd
  have h1 := hb (NewAttributeErrorDiagnostic "host" "Missing HashiCups API Host"
    missingHostDetail) rfl
  have h2 := hb (NewAttributeErrorDiagnostic "username" "Missing HashiCups API Username"
    missingUsernameDetail) rfl
  have h3 := hb (NewAttributeErrorDiagnostic "password" "Missing HashiCups API Password"
    missingPasswordDetail) rfl
  simp only [Configure, hget, hHost, hUsername, hPassword, eh, eu, ep, Bool.false_eq_true,
    if_false]
  by_cases ch : precedence req.Config.2.Host (env "HASHICUPS_HOST") = "" <;>
  by_cases cu : precedence req.Config.2.Username (env "HASHICUPS_USERNAME") = "" <;>
  by_cases cp : precedence req.Config.2.Password (env "HASHICUPS_PASSWORD") = "" <;>
  simp [ch, cu, cp, AddAttributeError, Append1, h1, h2, h3, HasError_append, HasError,
    NewAttributeErrorDiagnostic_severity, attr_ne_of_ne] at hempty ⊢

/-- Witness for C2: the host is configured as the empty string while `HASHICUPS_HOST` is set;
the only diagnostic is the one for the host and no client is constructed. -/
theorem Configure_missing_values_witness :
    (Configure sampleEnv sampleNewClient sampleCtx
        (configureRequestOf (TfString.known "") TfString.null TfString.null)
        freshConfigureResponse).resp.Diagnostics =
        [NewAttributeErrorDiagnostic "host" "Missing HashiCups API Host" missingHostDetail] ∧
      (Configure sampleEnv sampleNewClient sampleCtx
        (configureRequestOf (TfString.known "") TfString.null TfString.null)
        freshConfigureResponse).newClientCalls = [] :=
  have h := Configure_missing_values sampleEnv sampleNewClient sampleCtx
    (configureRequestOf (TfString.known "") TfString.null TfString.null)
    freshConfigureResponse (by decide) (by decide) (by decide) (by decide) (by decide)
  ⟨h.1, h.2.1⟩

/-- C3: when the configuration decodes without error and at least one of host, username and
password is unknown, the diagnostics `Configure` adds are exactly the `Unknown ...` attribute
error of each unknown field, at the root path of that field, in the order host, username,
password; none of them is a `Missing ...` diagnostic; the run is the same for every environment
and every client constructor; no client is constructed and none is published. -/
theorem Configure_unknown_values {κ : Type} (env : String → String)
    (NewClient : String → String → String → Except String κ) (ctx : LogCtx)
    (req : ConfigureRequest) (resp : ConfigureResponse κ)
    (hget : HasError (Append resp.Diagnostics req.Config.1) = false)
    (hunknown : req.Config.2.Host.IsUnknown = true ∨ req.Config.2.Username.IsUnknown = true ∨
      req.Config.2.Password.IsUnknown = true) :
    (Configure env NewClient ctx req resp).resp.Diagnostics =
        Append resp.Diagnostics req.Config.1 ++
          ((if req.Config.2.Host.IsUnknown then
              [NewAttributeErrorDiagnostic "host" "Unknown HashiCups API Host"
                unknownHostDetail] else []) ++
           (if req.Config.2.Username.IsUnknown then
              [NewAttributeErrorDiagnostic "username" "Unknown HashiCups API Username"
                unknownUsernameDetail] else []) ++
           (if req.Config.2.Password.IsUnknown then
              [NewAttributeErrorDiagnostic "password" "Unknown HashiCups API Password"
                unknownPasswordDetail] else [])) ∧
      (∀ d ∈ (Configure env NewClient ctx req resp).resp.Diagnostics,
        d ∈ Append resp.Diagnostics req.Config.1 ∨
          (d.severity = Severity.error ∧
            d.summary ∈ ["Unknown HashiCups API Host", "Unknown HashiCups API Username",
              "Unknown HashiCups API Password"])) ∧
      (∀ (env2 : String → String) (NewClient2 : String → String → String → Except String κ),
        Configure env2 NewClient2 ctx req resp = Configure env NewClient ctx req resp) ∧
      (Configure env NewClient ctx req resp).newClientCalls = [] ∧
      (Configure env NewClient ctx req resp).resp.DataSourceData = resp.DataSourceData ∧
      (Configure env NewClient ctx req resp).resp.ResourceData = resp.ResourceData := by
  have hb : ∀ d : Diagnostic, d.severity = Severity.error →
      d ∉ Append resp.Diagnostics req.Config.1 :=
    fun d hd => not_mem_of_HasError_false _ d hget hd
  have h1 := hb (NewAttributeErrorDiagnostic "host" "Unknown HashiCups API Host"
    unknownHostDetail) rfl
  have h2 := hb (NewAttributeErrorDiagnostic "username" "Unknown HashiCups API Username"
    unknownUsernameDetail) rfl
  have h3 := hb (NewAttributeErrorDiagnostic "password" "Unknown HashiCups API Password"
    unknownPasswordDetail) rfl
  have key : ∀ (env2 : String → String)
      (NewClient2 : String → String → String → Except String κ),
      Configure env2 NewClient2 ctx req resp =
        { resp := { resp with Diagnostics := Append resp.Diagnostics req.Config.1 ++
            ((if req.Config.2.Host.IsUnknown then
                [NewAttributeErrorDiagnostic "host" "Unknown HashiCups API Host"
                  unknownHostDetail] else []) ++
             (if req.Config.2.Username.IsUnknown then
                [NewAttributeErrorDiagnostic "username" "Unknown HashiCups API Username"
                  unknownUsernameDetail] else []) ++
             (if req.Config.2.Password.IsUnknown then
                [NewAttributeErrorDiagnostic "password" "Unknown HashiCups API Password"
                  unknownPasswordDetail] else [])) },
          logs := [emit ctx "info" "Configuring HashiCups Client" []],
          newClientCalls := [] } := by
    intro env2 NewClient2
    simp only [Configure, hget, Bool.false_eq_true, if_false]
    cases ch : req.Config.2.Host.IsUnknown <;>
    cases cu : req.Config.2.Username.IsUnknown <;>
    cases cp : req.Config.2.Password.IsUnknown <;>
    simp [ch, cu, cp, AddAttributeError, Append1, h1, h2, h3, HasError_append, HasError,
      NewAttributeErrorDiagnostic_severity, attr_ne_of_ne] at hunknown ⊢
  refine ⟨by rw [key], ?_, fun env2 NewClient2 => by rw [key, key], by rw [key], by rw [key],
    by rw [key]⟩
  intro d hd
  rw [key] at hd
  simp only [List.mem_append] at hd
  rcases hd with hd | hd
  · exact Or.inl hd
  · right
    rcases hd with (hd | hd) | hd <;>
    · split at hd
      · simp only [List.mem_singleton] at hd
        subst hd
        simp [NewAttributeErrorDiagnostic]
      · simp at hd

/-- Witness for C3: host and password are unknown, the username is configured. -/
theorem Configure_unknown_values_witness :
    (Configure sampleEnv sampleNewClient sampleCtx
        (configureRequestOf TfString.unknown (TfString.known "education") TfString.unknown)
        freshConfigureResponse).resp.Diagnostics =
        [NewAttributeErrorDiagnostic "host" "Unknown HashiCups API Host" unknownHostDetail,
          NewAttributeErrorDiagnostic "password" "Unknown HashiCups API Password"
            unknownPasswordDetail] ∧
      (Configure sampleEnv sampleNewClient sampleCtx
        (configureRequestOf TfString.unknown (TfString.known "education") TfString.unknown)
        freshConfigureResponse).newClientCalls = [] :=
  have h := Configure_unknown_values sampleEnv sampleNewClient sampleCtx
    (configureRequestOf TfString.unknown (TfString.known "education") TfString.unknown)
    freshConfigureResponse (by decide) (by decide)
  ⟨h.1, h.2.2.2.1⟩

/-! ## Coffees data source -/

/-- C4: when the data source has a client, list-coffees succeeds with the coffees `coffees` and
the framework accepts the value, `Read` returns and writes a state whose coffees list has as
many entries as the response, in the response order, the entry of each coffee carrying its id,
name, teaser, description, price and image and exactly its ingredient ids in their order, and
whose id is the string `placeholder`. -/
theorem coffees_Read_maps_response {σ : Type} (d : coffeesDataSource σ) (client : Client σ)
    (resp : DataSourceReadResponse) (s s1 : σ) (coffees : List Coffee)
    (hclient : d.client = some client)
    (hcall : client.GetCoffees s = (Except.ok coffees, s1))
    (hset : ∀ m, HasError (resp.State.Schema m) = false) :
    ∃ run st, d.Read resp s = Outcome.returned run ∧
      run.resp.State.Raw = some st ∧
      st.ID = TfString.known "placeholder" ∧
      st.Coffees.length = coffees.length ∧
      st.Coffees = coffees.map (fun coffee =>
        { ID := TfInt64.known coffee.ID
          Name := TfString.known coffee.Name
          Teaser := TfString.known coffee.Teaser
          Description := TfString.known coffee.Description
          Price := TfFloat64.known coffee.Price
          Image := TfString.known coffee.Image
          Ingredients := coffee.Ingredient.map (fun ingredient =>
            { ID := TfInt64.known ingredient.ID }) }) := by
  have hmap : coffeeStateOf = (fun coffee : Coffee =>
      ({ ID := TfInt64.known coffee.ID
         Name := TfString.known coffee.Name
         Teaser := TfString.known coffee.Teaser
         Description := TfString.known coffee.Description
         Price := TfFloat64.known coffee.Price
         Image := TfString.known coffee.Image
         Ingredients := coffee.Ingredient.map (fun ingredient =>
           { ID := TfInt64.known ingredient.ID }) } : coffeesModel)) := by
    funext coffee
    simp only [coffeeStateOf, ingredients_foldl]
    simp [Int64Value, StringValue, Float64Value, int64OfInt]
  simp only [coffeesDataSource.Read, hclient, hcall, coffees_foldl,
    State_Set_of_no_error _ _ (hset _)]
  refine ⟨_, _, rfl, rfl, rfl, ?_, ?_⟩
  · simp
  · simp [hmap]

/-- Witness for C4: a catalog of two coffees, the first with two ingredients. -/
theorem coffees_Read_maps_response_witness :
    ∃ run st,
      coffeesDataSource.Read
          { client := some (fixedClient (Except.ok [sampleCoffee, zeroCoffee])
              (Except.error "") (Except.error "") (Except.error "")) }
          { State := nullState coffeesDataSourceModel, Diagnostics := [] } 0 =
        Outcome.returned run ∧
      run.resp.State.Raw = some st ∧
      st.ID = TfString.known "placeholder" ∧
      st.Coffees.length = 2 ∧
      st.Coffees.map (fun c => c.Ingredients) =
        [[{ ID := TfInt64.known 1 }, { ID := TfInt64.known 3 }], []] := by
  obtain ⟨run, st, h1, h2, h3, h4, h5⟩ := coffees_Read_maps_response
    { client := some (fixedClient (Except.ok [sampleCoffee, zeroCoffee])
        (Except.error "") (Except.error "") (Except.error "")) }
    (fixedClient (Except.ok [sampleCoffee, zeroCoffee])
        (Except.error "") (Except.error "") (Except.error ""))
    { State := nullState coffeesDataSourceModel, Diagnostics := [] } 0 1
    [sampleCoffee, zeroCoffee] rfl rfl (fun _ => rfl)
  exact ⟨run, st, h1, h2, h3, h4, by rw [h5]; rfl⟩


/-! ## Order resource: create -/

/-- C5: evaluation of `Create` on a plan without items when create-order succeeds with the
assigned id 42 and no items: the call returns without a diagnostic, after one create-order call,
and no state is written, so neither the id nor `last_updated` is stored. -/
theorem Create_writes_no_state_when_response_has_no_items :
    createdState (orderResource.Create
        (resourceCreating (Except.ok { ID := 42, Items := [] }))
        (fun _ => sampleTime) (createRequestOf []) freshCreateResponse 0) = none ∧
      (orderResource.Create
        (resourceCreating (Except.ok { ID := 42, Items := [] }))
        (fun _ => sampleTime) (createRequestOf []) freshCreateResponse 0).run?.map
          (fun run => (run.resp.Diagnostics, run.calls)) =
        some ([], [ApiCall.CreateOrder []]) :=
  ⟨rfl, rfl⟩

/-- C6: evaluation of `Create` on a plan of two items when create-order succeeds with a
response that carries one item: the state `Create` writes has two items; the first is the image
of the response item, the second is still the planned item, whose coffee name is unknown, so
the state set is not fully populated with the fields of the server. -/
theorem Create_keeps_planned_item_beyond_response :
    (createdState (orderResource.Create
        (resourceCreating (Except.ok { ID := 42, Items := [sampleOrderItem] }))
        (fun _ => sampleTime) (createRequestOf [plannedItem 3 2, plannedItem 1 1])
        freshCreateResponse 0)).map (fun st => st.Items) =
        some [fieldForField sampleOrderItem, plannedItem 1 1] ∧
      (plannedItem 1 1).Coffee.Name = TfString.unknown :=
  ⟨rfl, rfl⟩

/-- The assignment by position in `Create`: when the plan decodes without error, create-order
succeeds with an order of at least one and at most as many items as the plan, and the
framework accepts the value,
`Create` returns and writes a state whose items are the field-for-field images of the response
items, by position, followed by the planned items beyond the response; so the item at every
position below the item count of the response carries the server fields of the response item at
that position, and when the response has as many items as the plan no planned item is left. -/
theorem Create_overwrites_items_by_position {σ : Type} (r : orderResource σ)
    (client : Client σ) (clock : Nat → GoTime) (req : CreateRequest) (resp : CreateResponse)
    (s s1 : σ) (order : Order)
    (hclient : r.client = some client)
    (hget : HasError (Append resp.Diagnostics req.Plan.1) = false)
    (hcall : client.CreateOrder (requestItems req.Plan.2.Items) s = (Except.ok order, s1))
    (hset : ∀ m, HasError (resp.State.Schema m) = false)
    (hpos : 0 < order.Items.length)
    (hle : order.Items.length ≤ req.Plan.2.Items.length) :
    ∃ run st, r.Create clock req resp s = Outcome.returned run ∧
      run.resp.State.Raw = some st ∧
      st.Items = order.Items.map fieldForField ++ req.Plan.2.Items.drop order.Items.length ∧
      (∀ i, i < order.Items.length → st.Items[i]? = order.Items[i]?.map fieldForField) ∧
      (order.Items.length = req.Plan.2.Items.length →
        st.Items = order.Items.map fieldForField) := by
  obtain ⟨resp2, h1, _, _, _, h5⟩ := createLoop_spec clock order.Items 0
    { req.Plan.2 with ID := StringValue (Itoa order.ID) }
    { resp with Diagnostics := Append resp.Diagnostics req.Plan.1 } hset hget
    (by simpa using hle)
  have hne : order.Items ≠ [] := by
    intro h
    rw [h] at hpos
    exact Nat.lt_irrefl 0 hpos
  refine ⟨{ resp := resp2, calls := [ApiCall.CreateOrder (requestItems req.Plan.2.Items)],
            upstream := s1 }, _, ?_, h5 hne, ?_, ?_, ?_⟩
  · simp only [orderResource.Create, hget, hclient, hcall, h1, Bool.false_eq_true, if_false]
  · simp [orderItemModelOf_eq_fieldForField]
  · intro i hi
    simp only [List.take_zero, List.nil_append, Nat.zero_add, orderItemModelOf_eq_fieldForField]
    rw [List.getElem?_append_left (by simpa using hi)]
    simp
  · intro heq
    simp [orderItemModelOf_eq_fieldForField, heq]

/-- The assignment by position in `Create` on a plan of two items and a response of one
item. -/
theorem Create_overwrites_items_by_position_witness :
    ∃ run st,
      orderResource.Create
          (resourceCreating (Except.ok { ID := 42, Items := [sampleOrderItem] }))
          (fun _ => sampleTime) (createRequestOf [plannedItem 3 2, plannedItem 1 1])
          freshCreateResponse 0 = Outcome.returned run ∧
      run.resp.State.Raw = some st ∧
      st.Items = [fieldForField sampleOrderItem, plannedItem 1 1] := by
  obtain ⟨run, st, h1, h2, h3, _, _⟩ := Create_overwrites_items_by_position
    (resourceCreating (Except.ok { ID := 42, Items := [sampleOrderItem] }))
    (fixedClient (Except.error "") (Except.ok { ID := 42, Items := [sampleOrderItem] })
      (Except.error "") (Except.error ""))
    (fun _ => sampleTime) (createRequestOf [plannedItem 3 2, plannedItem 1 1])
    freshCreateResponse 0 1 { ID := 42, Items := [sampleOrderItem] } rfl rfl rfl
    (fun _ => rfl) (by decide) (by decide)
  exact ⟨run, st, h1, h2, h3⟩

/-! ## Upstream failures -/

/-- C7: when the response handed over carries no error yet and the single upstream call fails
with error text `e` (list-coffees for the coffees data source `Read`, create-order for order
`Create` after the plan decoded without error), the operation returns having added exactly one
diagnostic, an error whose detail contains `e`, having issued that one upstream call and no
other, and having left the state of the response as it was. -/
theorem upstream_failure_adds_one_error {σ : Type} (d : coffeesDataSource σ)
    (r : orderResource σ) (client : Client σ) (clock : Nat → GoTime)
    (dresp : DataSourceReadResponse) (req : CreateRequest) (resp : CreateResponse)
    (s s1 : σ) (e : String) :
    (d.client = some client → HasError dresp.Diagnostics = false →
      client.GetCoffees s = (Except.error e, s1) →
      ∃ run diagnostic, d.Read dresp s = Outcome.returned run ∧
        run.resp.Diagnostics = dresp.Diagnostics ++ [diagnostic] ∧
        diagnostic.severity = Severity.error ∧
        containsText diagnostic.detail e ∧
        run.calls = [ApiCall.GetCoffees] ∧
        run.resp.State = dresp.State) ∧
    (r.client = some client → HasError (Append resp.Diagnostics req.Plan.1) = false →
      client.CreateOrder (requestItems req.Plan.2.Items) s = (Except.error e, s1) →
      ∃ run diagnostic, r.Create clock req resp s = Outcome.returned run ∧
        run.resp.Diagnostics = Append resp.Diagnostics req.Plan.1 ++ [diagnostic] ∧
        diagnostic.severity = Severity.error ∧
        containsText diagnostic.detail e ∧
        run.calls = [ApiCall.CreateOrder (requestItems req.Plan.2.Items)] ∧
        run.resp.State = resp.State) := by
  constructor
  · intro hclient hE hcall
    refine ⟨{ resp := { dresp with Diagnostics := (
                AddError dresp.Diagnostics "Unable to read HashiCups Coffees" e) },
              calls := [ApiCall.GetCoffees], upstream := s1 },
      NewErrorDiagnostic "Unable to read HashiCups Coffees" e, ?_, ?_, rfl,
      containsText_self e, rfl, rfl⟩
    · simp only [coffeesDataSource.Read, hclient, hcall]
    · simp only [AddError_of_no_error _ _ _ hE]
  · intro hclient hE hcall
    refine ⟨{ resp := { resp with Diagnostics := (
                AddError (Append resp.Diagnostics req.Plan.1) "Error creating order"
                  ("Could not create order, unexpected error: " ++ e)) },
              calls := [ApiCall.CreateOrder (requestItems req.Plan.2.Items)], upstream := s1 },
      NewErrorDiagnostic "Error creating order"
        ("Could not create order, unexpected error: " ++ e), ?_, ?_, rfl,
      containsText_append_left _ e, rfl, rfl⟩
    · simp only [orderResource.Create, hE, hclient, hcall, Bool.false_eq_true, if_false]
    · simp only [AddError_of_no_error _ _ _ hE]

/-- Witness for C7: both upstream calls fail with the text `connection refused`. -/
theorem upstream_failure_adds_one_error_witness :
    (∃ run diagnostic,
      coffeesDataSource.Read
          { client := some (fixedClient (Except.error "connection refused")
              (Except.error "connection refused") (Except.error "") (Except.error "")) }
          { State := nullState coffeesDataSourceModel, Diagnostics := [] } 0 =
        Outcome.returned run ∧
      run.resp.Diagnostics = [diagnostic] ∧ containsText diagnostic.detail "connection refused" ∧
      run.calls = [ApiCall.GetCoffees]) ∧
    (∃ run diagnostic,
      orderResource.Create
          { client := some (fixedClient (Except.error "connection refused")
              (Except.error "connection refused") (Except.error "") (Except.error "")) }
          (fun _ => sampleTime) (createRequestOf [plannedItem 3 2]) freshCreateResponse 0 =
        Outcome.returned run ∧
      run.resp.Diagnostics = [diagnostic] ∧ containsText diagnostic.detail "connection refused" ∧
      run.resp.State.Raw = none) := by
  have h := upstream_failure_adds_one_error
    { client := some (fixedClient (Except.error "connection refused")
        (Except.error "connection refused") (Except.error "") (Except.error "")) }
    { client := some (fixedClient (Except.error "connection refused")
        (Except.error "connection refused") (Except.error "") (Except.error "")) }
    (fixedClient (Except.error "connection refused")
        (Except.error "connection refused") (Except.error "") (Except.error ""))
    (fun _ => sampleTime)
    { State := nullState coffeesDataSourceModel, Diagnostics := [] }
    (createRequestOf [plannedItem 3 2]) freshCreateResponse 0 1 "connection refused"
  obtain ⟨run, dg, h1, h2, _, h4, h5, _⟩ := h.1 rfl rfl rfl
  obtain ⟨run2, dg2, k1, k2, _, k4, _, k6⟩ := h.2 rfl rfl rfl
  exact ⟨⟨run, dg, h1, h2, h4, h5⟩, ⟨run2, dg2, k1, k2, k4, by rw [k6]; rfl⟩⟩

/-! ## Order resource: read and update -/

/-- C8: when the prior state decodes without error, get-order succeeds and the framework
accepts the value, order `Read` returns having issued exactly one upstream call, get-order with
the stored id, and writes a state whose items are the field-for-field images of the response
items in response order, whatever the prior items were, and whose id and `last_updated` are
those of the prior state. -/
theorem Read_replaces_items_and_keeps_identity {σ : Type} (r : orderResource σ)
    (client : Client σ) (req : ReadRequest) (resp : ReadResponse) (s s1 : σ) (order : Order)
    (hclient : r.client = some client)
    (hget : HasError (Append resp.Diagnostics req.State.1) = false)
    (hcall : client.GetOrder req.State.2.ID.ValueString s = (Except.ok order, s1))
    (hset : ∀ m, HasError (resp.State.Schema m) = false) :
    ∃ run st, r.Read req resp s = Outcome.returned run ∧
      run.calls = [ApiCall.GetOrder req.State.2.ID.ValueString] ∧
      run.resp.State.Raw = some st ∧
      st.Items = order.Items.map fieldForField ∧
      st.ID = req.State.2.ID ∧
      st.LastUpdated = req.State.2.LastUpdated := by
  simp only [orderResource.Read, hget, hclient, hcall, Bool.false_eq_true, if_false,
    State_Set_of_no_error _ _ (hset _), refreshedItems_eq_map]
  exact ⟨_, _, rfl, rfl, rfl, rfl, rfl, rfl⟩

/-- Witness for C8: a stored order of two items is refreshed by a response of one item. -/
theorem Read_replaces_items_and_keeps_identity_witness :
    ∃ run st,
      orderResource.Read
          (resourceAnswering (Except.ok { ID := 42, Items := [sampleOrderItem] })
            (Except.error ""))
          { State := ([], sampleStoredOrder) }
          { State := { Raw := some sampleStoredOrder, Schema := fun _ => [] },
            Diagnostics := [] } 0 = Outcome.returned run ∧
      run.calls = [ApiCall.GetOrder "42"] ∧
      run.resp.State.Raw = some st ∧
      st.Items = [fieldForField sampleOrderItem] ∧
      st.ID = TfString.known "42" := by
  obtain ⟨run, st, h1, h2, h3, h4, h5, _⟩ := Read_replaces_items_and_keeps_identity
    (resourceAnswering (Except.ok { ID := 42, Items := [sampleOrderItem] }) (Except.error ""))
    (fixedClient (Except.error "") (Except.error "")
      (Except.ok { ID := 42, Items := [sampleOrderItem] }) (Except.error ""))
    { State := ([], sampleStoredOrder) }
    { State := { Raw := some sampleStoredOrder, Schema := fun _ => [] }, Diagnostics := [] }
    0 1 { ID := 42, Items := [sampleOrderItem] } rfl rfl rfl (fun _ => rfl)
  exact ⟨run, st, h1, h2, h3, h4, h5⟩

/-- C9: when the plan decodes without error, update-order succeeds, the get-order that follows
it succeeds and the framework accepts the value, order `Update` returns having issued exactly
two upstream calls, update-order with the id of the plan and one request line per plan item,
in plan order, carrying the coffee id and quantity of that item, and then get-order with the id
of the plan, and writes a state whose id is the id of the plan, whose
items are the field-for-field images of the items of the get-order response in response order,
and whose `last_updated` is the reading of the clock formatted as RFC 850, a non-empty
string. -/
theorem Update_updates_then_reads_back {σ : Type} (r : orderResource σ) (client : Client σ)
    (clock : Nat → GoTime) (req : UpdateRequest) (resp : UpdateResponse) (s s1 s2 : σ)
    (updated order : Order)
    (hclient : r.client = some client)
    (hget : HasError (Append resp.Diagnostics req.Plan.1) = false)
    (hupdate : client.UpdateOrder req.Plan.2.ID.ValueString
        (req.Plan.2.Items.map requestedLine) s = (Except.ok updated, s1))
    (hread : client.GetOrder req.Plan.2.ID.ValueString s1 = (Except.ok order, s2))
    (hset : ∀ m, HasError (resp.State.Schema m) = false) :
    ∃ run st, r.Update clock req resp s = Outcome.returned run ∧
      run.calls = [ApiCall.UpdateOrder req.Plan.2.ID.ValueString
          (req.Plan.2.Items.map requestedLine),
        ApiCall.GetOrder req.Plan.2.ID.ValueString] ∧
      run.resp.State.Raw = some st ∧
      st.ID = req.Plan.2.ID ∧
      st.Items = order.Items.map fieldForField ∧
      st.LastUpdated = TfString.known (FormatRFC850 (clock 0)) ∧
      FormatRFC850 (clock 0) ≠ "" := by
  simp only [orderResource.Update, hget, hclient, requestItems_eq_map, hupdate, hread,
    Bool.false_eq_true, if_false, State_Set_of_no_error _ _ (hset _), refreshedItems_eq_map]
  exact ⟨_, _, rfl, rfl, rfl, rfl, rfl, rfl, FormatRFC850_ne_empty _⟩

/-- Witness for C9: a stored order of two planned items; update-order receives the two request
lines of the plan and answers without items, the get-order that follows answers with one item;
the state written carries that item and a fresh timestamp. -/
theorem Update_updates_then_reads_back_witness :
    ∃ run st,
      orderResource.Update
          (resourceAnswering (Except.ok { ID := 42, Items := [sampleOrderItem] })
            (Except.ok { ID := 42, Items := [] }))
          (fun _ => sampleTime) { Plan := ([], sampleStoredOrder) }
          { State := { Raw := some sampleStoredOrder, Schema := fun _ => [] },
            Diagnostics := [] } 0 = Outcome.returned run ∧
      run.calls = [ApiCall.UpdateOrder "42"
          [{ Coffee := { zeroCoffee with ID := 3 }, Quantity := 2 },
           { Coffee := { zeroCoffee with ID := 1 }, Quantity := 1 }],
        ApiCall.GetOrder "42"] ∧
      run.resp.State.Raw = some st ∧
      st.ID = TfString.known "42" ∧
      st.Items = [fieldForField sampleOrderItem] ∧
      st.LastUpdated = TfString.known "Wednesday, 04-Nov-26 17:45:00 UTC" := by
  obtain ⟨run, st, h1, h2, h3, h4, h5, h6, _⟩ := Update_updates_then_reads_back
    (resourceAnswering (Except.ok { ID := 42, Items := [sampleOrderItem] })
      (Except.ok { ID := 42, Items := [] }))
    (fixedClient (Except.error "") (Except.error "")
      (Except.ok { ID := 42, Items := [sampleOrderItem] }) (Except.ok { ID := 42, Items := [] }))
    (fun _ => sampleTime) { Plan := ([], sampleStoredOrder) }
    { State := { Raw := some sampleStoredOrder, Schema := fun _ => [] }, Diagnostics := [] }
    0 1 2 { ID := 42, Items := [] } { ID := 42, Items := [sampleOrderItem] }
    rfl rfl rfl rfl (fun _ => rfl)
  refine ⟨run, st, h1, h2, h3, h4, h5, ?_⟩
  rw [h6]
  decide

/-- C10: after the plan decoded without error, order `Update` reports the two failures it can
meet upstream with two different diagnostics. If update-order fails with error text `e`, exactly
one error is added, with summary `Error Updating HashiCups Order`, update-order is the only
upstream call (get-order is not called) and the state is left as it was. If update-order
succeeds and get-order fails with `e`, exactly one error is added, with summary
`Error Reading HashiCups Order`, after the two calls, and the state is left as it was. The
detail of each contains `e`, and the two summaries differ. -/
theorem Update_failures_are_distinguishable {σ : Type} (r : orderResource σ)
    (client : Client σ) (clock : Nat → GoTime) (req : UpdateRequest) (resp : UpdateResponse)
    (s s1 s2 : σ) (updated : Order) (e : String)
    (hclient : r.client = some client)
    (hget : HasError (Append resp.Diagnostics req.Plan.1) = false) :
    (client.UpdateOrder req.Plan.2.ID.ValueString (requestItems req.Plan.2.Items) s =
        (Except.error e, s1) →
      ∃ run diagnostic, r.Update clock req resp s = Outcome.returned run ∧
        run.resp.Diagnostics = Append resp.Diagnostics req.Plan.1 ++ [diagnostic] ∧
        diagnostic.severity = Severity.error ∧
        diagnostic.summary = "Error Updating HashiCups Order" ∧
        containsText diagnostic.detail e ∧
        run.calls =
          [ApiCall.UpdateOrder req.Plan.2.ID.ValueString (requestItems req.Plan.2.Items)] ∧
        run.resp.State = resp.State) ∧
    (client.UpdateOrder req.Plan.2.ID.ValueString (requestItems req.Plan.2.Items) s =
        (Except.ok updated, s1) →
      client.GetOrder req.Plan.2.ID.ValueString s1 = (Except.error e, s2) →
      ∃ run diagnostic, r.Update clock req resp s = Outcome.returned run ∧
        run.resp.Diagnostics = Append resp.Diagnostics req.Plan.1 ++ [diagnostic] ∧
        diagnostic.severity = Severity.error ∧
        diagnostic.summary = "Error Reading HashiCups Order" ∧
        containsText diagnostic.detail e ∧
        run.calls =
          [ApiCall.UpdateOrder req.Plan.2.ID.ValueString (requestItems req.Plan.2.Items),
            ApiCall.GetOrder req.Plan.2.ID.ValueString] ∧
        run.resp.State = resp.State) ∧
    "Error Updating HashiCups Order" ≠ "Error Reading HashiCups Order" := by
  refine ⟨?_, ?_, by decide⟩
  · intro hupdate
    refine ⟨{ resp := { resp with Diagnostics := (
                AddError (Append resp.Diagnostics req.Plan.1) "Error Updating HashiCups Order"
                  ("Could not update order, unexpected error: " ++ e)) },
              calls := [ApiCall.UpdateOrder req.Plan.2.ID.ValueString
                (requestItems req.Plan.2.Items)],
              upstream := s1 },
      NewErrorDiagnostic "Error Updating HashiCups Order"
        ("Could not update order, unexpected error: " ++ e), ?_, ?_, rfl, rfl,
      containsText_append_left _ e, rfl, rfl⟩
    · simp only [orderResource.Update, hget, hclient, hupdate, Bool.false_eq_true, if_false]
    · simp only [AddError_of_no_error _ _ _ hget]
  · intro hupdate hread
    refine ⟨{ resp := { resp with Diagnostics := (
                AddError (Append resp.Diagnostics req.Plan.1) "Error Reading HashiCups Order"
                  ("Could not read order, unexpected error: " ++ e)) },
              calls := [ApiCall.UpdateOrder req.Plan.2.ID.ValueString
                (requestItems req.Plan.2.Items), ApiCall.GetOrder req.Plan.2.ID.ValueString],
              upstream := s2 },
      NewErrorDiagnostic "Error Reading HashiCups Order"
        ("Could not read order, unexpected error: " ++ e), ?_, ?_, rfl, rfl,
      containsText_append_left _ e, rfl, rfl⟩
    · simp only [orderResource.Update, hget, hclient, hupdate, hread, Bool.false_eq_true,
        if_false]
    · simp only [AddError_of_no_error _ _ _ hget]

/-- Witness for C10: update-order succeeds and the get-order that follows fails with the text
`not found`; one error with the read summary is added after the two calls. -/
theorem Update_failures_are_distinguishable_witness :
    ∃ run diagnostic,
      orderResource.Update
          (resourceAnswering (Except.error "not found") (Except.ok { ID := 42, Items := [] }))
          (fun _ => sampleTime) { Plan := ([], sampleStoredOrder) }
          { State := { Raw := some sampleStoredOrder, Schema := fun _ => [] },
            Diagnostics := [] } 0 = Outcome.returned run ∧
      run.resp.Diagnostics = [diagnostic] ∧
      diagnostic.summary = "Error Reading HashiCups Order" ∧
      containsText diagnostic.detail "not found" ∧
      run.calls = [ApiCall.UpdateOrder "42" (requestItems sampleStoredOrder.Items),
        ApiCall.GetOrder "42"] ∧
      run.resp.State.Raw = some sampleStoredOrder := by
  have h := Update_failures_are_distinguishable
    (resourceAnswering (Except.error "not found") (Except.ok { ID := 42, Items := [] }))
    (fixedClient (Except.error "") (Except.error "") (Except.error "not found")
      (Except.ok { ID := 42, Items := [] }))
    (fun _ => sampleTime) { Plan := ([], sampleStoredOrder) }
    { State := { Raw := some sampleStoredOrder, Schema := fun _ => [] }, Diagnostics := [] }
    0 1 2 { ID := 42, Items := [] } "not found" rfl rfl
  obtain ⟨run, dg, h1, h2, _, h4, h5, h6, h7⟩ := h.2.1 rfl rfl
  exact ⟨run, dg, h1, h2, h4, h5, h6, by rw [h7]⟩

/-! ## Order resource: delete -/

/-- C11: for every delete request, every response, every resource (with or without a client)
and every state of the upstream, order `Delete` returns, issues no upstream call, leaves the
upstream as it was, and hands back the response it was given unchanged, with no diagnostic
added. -/
theorem Delete_is_a_local_no_op {σ : Type} (r : orderResource σ) (req : DeleteRequest)
    (resp : DeleteResponse) (s : σ) :
    ∃ run, r.Delete req resp s = Outcome.returned run ∧
      run.calls = [] ∧
      run.upstream = s ∧
      run.resp = resp ∧
      run.resp.Diagnostics = resp.Diagnostics ∧
      HasError run.resp.Diagnostics = HasError resp.Diagnostics :=
  ⟨{ resp := resp, calls := [], upstream := s }, rfl, rfl, rfl, rfl, rfl, rfl⟩

/-! ## Order resource: request body and index safety of create -/

/-- C13: for every plan that decodes without error, the item list order `Create` passes to
create-order and the item list order `Update` passes to update-order are both the list of the
request lines of the plan items: same length and order as the plan, the entry at each position
carrying the coffee id and quantity of the plan item at that position and zero values in every
other coffee field. `Update` always returns with update-order on that list as its first call;
`Create` returns with create-order on that list as its only call, unless create-order, called on
that list, answered with more items than the plan has and the call is aborted. -/
theorem Create_and_Update_send_the_full_item_list {σ : Type} (r : orderResource σ)
    (client : Client σ) (clock : Nat → GoTime) (plan : orderResourceModel)
    (creq : CreateRequest) (cresp : CreateResponse) (ureq : UpdateRequest)
    (uresp : UpdateResponse) (s : σ)
    (hclient : r.client = some client)
    (hcplan : creq.Plan.2 = plan) (huplan : ureq.Plan.2 = plan)
    (hcget : HasError (Append cresp.Diagnostics creq.Plan.1) = false)
    (huget : HasError (Append uresp.Diagnostics ureq.Plan.1) = false) :
    ((∃ run, r.Create clock creq cresp s = Outcome.returned run ∧
        run.calls = [ApiCall.CreateOrder (plan.Items.map requestedLine)]) ∨
      (r.Create clock creq cresp s = Outcome.fault Fault.indexOutOfRange ∧
        ∃ order s1, client.CreateOrder (plan.Items.map requestedLine) s = (Except.ok order, s1) ∧
          plan.Items.length < order.Items.length)) ∧
    (∃ run, r.Update clock ureq uresp s = Outcome.returned run ∧
      run.calls.head? =
        some (ApiCall.UpdateOrder plan.ID.ValueString (plan.Items.map requestedLine))) ∧
    (plan.Items.map requestedLine).length = plan.Items.length ∧
    (∀ i : Nat, (plan.Items.map requestedLine)[i]? = plan.Items[i]?.map requestedLine) := by
  subst hcplan
  refine ⟨?_, ?_, by simp, fun i => by simp⟩
  · simp only [orderResource.Create, hcget, hclient, requestItems_eq_map, Bool.false_eq_true,
      if_false]
    rcases hc : client.CreateOrder (creq.Plan.2.Items.map requestedLine) s with ⟨res, s1⟩
    cases res with
    | error err => exact Or.inl ⟨_, rfl, rfl⟩
    | ok order =>
      rcases createLoop_returned_or_fault clock order.Items 0
        { creq.Plan.2 with ID := StringValue (Itoa order.ID) }
        { cresp with Diagnostics := Append cresp.Diagnostics creq.Plan.1 } with ⟨resp2, h⟩ | ⟨h1, h2⟩
      · simp only [h]
        exact Or.inl ⟨_, rfl, rfl⟩
      · dsimp only
        rw [h1]
        exact Or.inr ⟨rfl, order, s1, rfl, by simpa using h2⟩
  · simp only [orderResource.Update, huget, hclient, huplan, requestItems_eq_map,
      Bool.false_eq_true, if_false]
    rcases hu : client.UpdateOrder creq.Plan.2.ID.ValueString
      (creq.Plan.2.Items.map requestedLine) s with ⟨res, s1⟩
    cases res with
    | error err => exact ⟨_, rfl, rfl⟩
    | ok updated =>
      dsimp only
      rcases hg : client.GetOrder creq.Plan.2.ID.ValueString s1 with ⟨res2, s2⟩
      cases res2 with
      | error err => exact ⟨_, rfl, rfl⟩
      | ok order => exact ⟨_, rfl, rfl⟩

/-- Witness for C13: the same plan of two items, given to `Create` and to `Update`; both pass
the same two request lines upstream. -/
theorem Create_and_Update_send_the_full_item_list_witness :
    (createdState (orderResource.Create
        (resourceCreating (Except.ok { ID := 42, Items := [sampleOrderItem] }))
        (fun _ => sampleTime) { Plan := ([], sampleStoredOrder) } freshCreateResponse 0) ≠ none ∧
      (orderResource.Create
        (resourceCreating (Except.ok { ID := 42, Items := [sampleOrderItem] }))
        (fun _ => sampleTime) { Plan := ([], sampleStoredOrder) } freshCreateResponse 0).run?.map
          (fun run => run.calls) =
        some [ApiCall.CreateOrder
          [{ Coffee := { zeroCoffee with ID := 3 }, Quantity := 2 },
           { Coffee := { zeroCoffee with ID := 1 }, Quantity := 1 }]]) ∧
    (∃ run,
      orderResource.Update
          (resourceCreating (Except.ok { ID := 42, Items := [sampleOrderItem] }))
          (fun _ => sampleTime) { Plan := ([], sampleStoredOrder) }
          { State := nullState orderResourceModel, Diagnostics := [] } 0 =
        Outcome.returned run ∧
      run.calls.head? = some (ApiCall.UpdateOrder "42"
        [{ Coffee := { zeroCoffee with ID := 3 }, Quantity := 2 },
         { Coffee := { zeroCoffee with ID := 1 }, Quantity := 1 }])) :=
  have h := Create_and_Update_send_the_full_item_list
    (resourceCreating (Except.ok { ID := 42, Items := [sampleOrderItem] }))
    (fixedClient (Except.error "") (Except.ok { ID := 42, Items := [sampleOrderItem] })
      (Except.error "") (Except.error ""))
    (fun _ => sampleTime) sampleStoredOrder
    { Plan := ([], sampleStoredOrder) } freshCreateResponse
    { Plan := ([], sampleStoredOrder) }
    { State := nullState orderResourceModel, Diagnostics := [] } 0 rfl rfl rfl rfl rfl
  ⟨⟨by decide, rfl⟩, h.2.1⟩

/-- The index safety of `Create`: when the plan decodes without error, create-order succeeds
and the framework accepts the values, `Create` returns if and only if the response has at most
as many items as the plan; otherwise it is aborted by an index out of range. -/
theorem Create_returns_iff_response_fits {σ : Type} (r : orderResource σ)
    (client : Client σ) (clock : Nat → GoTime) (req : CreateRequest) (resp : CreateResponse)
    (s s1 : σ) (order : Order)
    (hclient : r.client = some client)
    (hget : HasError (Append resp.Diagnostics req.Plan.1) = false)
    (hcall : client.CreateOrder (requestItems req.Plan.2.Items) s = (Except.ok order, s1))
    (hset : ∀ m, HasError (resp.State.Schema m) = false) :
    ((∃ run, r.Create clock req resp s = Outcome.returned run) ↔
        order.Items.length ≤ req.Plan.2.Items.length) ∧
      (req.Plan.2.Items.length < order.Items.length →
        r.Create clock req resp s = Outcome.fault Fault.indexOutOfRange) := by
  have hfault : req.Plan.2.Items.length < order.Items.length →
      r.Create clock req resp s = Outcome.fault Fault.indexOutOfRange := by
    intro hlt
    have h := createLoop_fault_of_gt clock order.Items 0
      { req.Plan.2 with ID := StringValue (Itoa order.ID) }
      { resp with Diagnostics := Append resp.Diagnostics req.Plan.1 } hset hget
      (Nat.zero_le _) (by simpa using hlt)
    simp only [orderResource.Create, hget, hclient, hcall, h, Bool.false_eq_true, if_false]
  refine ⟨⟨?_, ?_⟩, hfault⟩
  · rintro ⟨run, hrun⟩
    by_contra hnot
    rw [hfault (by omega)] at hrun
    exact Outcome.noConfusion hrun
  · intro hle
    obtain ⟨resp2, h1, _⟩ := createLoop_spec clock order.Items 0
      { req.Plan.2 with ID := StringValue (Itoa order.ID) }
      { resp with Diagnostics := Append resp.Diagnostics req.Plan.1 } hset hget
      (by simpa using hle)
    refine ⟨{ resp := resp2, calls := [ApiCall.CreateOrder (requestItems req.Plan.2.Items)],
              upstream := s1 }, ?_⟩
    simp only [orderResource.Create, hget, hclient, hcall, h1, Bool.false_eq_true, if_false]

/-- C14: evaluation of `Create` on a plan of one item when create-order succeeds with the
assigned id 42 and no items, so that the response has no more items than the plan: the call
returns, without a diagnostic, and no state is written, instead of a state with the one planned
item. With a response of two items the same call is aborted. -/
theorem Create_in_range_response_without_items_writes_no_state :
    (orderResource.Create (resourceCreating (Except.ok { ID := 42, Items := [] }))
        (fun _ => sampleTime) (createRequestOf [plannedItem 3 2]) freshCreateResponse 0).run?.map
          (fun run => (run.resp.State.Raw, run.resp.Diagnostics)) = some (none, []) ∧
      (orderResource.Create
        (resourceCreating (Except.ok { ID := 42, Items := [sampleOrderItem, sampleOrderItem] }))
        (fun _ => sampleTime) (createRequestOf [plannedItem 3 2]) freshCreateResponse 0).run? =
        none ∧
      (createdState (orderResource.Create
        (resourceCreating (Except.ok { ID := 42, Items := [sampleOrderItem] }))
        (fun _ => sampleTime) (createRequestOf [plannedItem 3 2, plannedItem 1 1])
        freshCreateResponse 0)).map (fun st => st.Items.length) = some 2 :=
  ⟨rfl, rfl, rfl⟩

/-! ## Provider configuration: the password in diagnostics and logs -/

/-- C12, as stated, fails: two runs of `Configure` that differ only in the value of the
configured, non-empty password, against a constructor that signs in with it. With the accepted
password no diagnostic is added and three log entries are emitted; with another password the
error of the constructor is added and two log entries are emitted. -/
theorem Configure_output_depends_on_accepted_password :
    (Configure sampleEnv checkingNewClient sampleCtx
        (configureRequestOf TfString.null TfString.null (TfString.known "test123"))
        freshConfigureResponse).resp.Diagnostics = [] ∧
      (Configure sampleEnv checkingNewClient sampleCtx
        (configureRequestOf TfString.null TfString.null (TfString.known "wrong"))
        freshConfigureResponse).resp.Diagnostics =
        [NewErrorDiagnostic "Unable to Create HashiCups API Client"
          (clientErrorDetail "status: 401, body: Invalid credentials")] ∧
      (Configure sampleEnv checkingNewClient sampleCtx
        (configureRequestOf TfString.null TfString.null (TfString.known "test123"))
        freshConfigureResponse).logs.length = 3 ∧
      (Configure sampleEnv checkingNewClient sampleCtx
        (configureRequestOf TfString.null TfString.null (TfString.known "wrong"))
        freshConfigureResponse).logs.length = 2 :=
  ⟨rfl, rfl, rfl, rfl⟩

/-- C12, amended: take two runs of `Configure` on the same response and logging context whose
inputs differ only in the password: the same decoding diagnostics, host and username, the same
`HASHICUPS_HOST` and `HASHICUPS_USERNAME`, and in both runs a password that is not unknown and
resolves to a non-empty value. If the client constructor fails with the same error text on both
resolved passwords or succeeds on both, then the two runs leave the same diagnostics and emit
the same log entries. And the attribute `password` of the provider schema is declared
sensitive. -/
theorem Configure_output_independent_of_password_value {κ : Type}
    (env1 env2 : String → String) (NewClient : String → String → String → Except String κ)
    (ctx : LogCtx) (diags : Diagnostics) (host username password1 password2 : TfString)
    (resp : ConfigureResponse κ)
    (hhost : env1 "HASHICUPS_HOST" = env2 "HASHICUPS_HOST")
    (husername : env1 "HASHICUPS_USERNAME" = env2 "HASHICUPS_USERNAME")
    (hknown1 : password1.IsUnknown = false) (hknown2 : password2.IsUnknown = false)
    (hp1 : precedence password1 (env1 "HASHICUPS_PASSWORD") ≠ "")
    (hp2 : precedence password2 (env2 "HASHICUPS_PASSWORD") ≠ "")
    (hclient :
      failureText (NewClient (precedence host (env1 "HASHICUPS_HOST"))
          (precedence username (env1 "HASHICUPS_USERNAME"))
          (precedence password1 (env1 "HASHICUPS_PASSWORD"))) =
        failureText (NewClient (precedence host (env1 "HASHICUPS_HOST"))
          (precedence username (env1 "HASHICUPS_USERNAME"))
          (precedence password2 (env2 "HASHICUPS_PASSWORD")))) :
    (Configure env1 NewClient ctx
        { Config := (diags, { Host := host, Username := username, Password := password1 }) }
        resp).resp.Diagnostics =
      (Configure env2 NewClient ctx
        { Config := (diags, { Host := host, Username := username, Password := password2 }) }
        resp).resp.Diagnostics ∧
    (Configure env1 NewClient ctx
        { Config := (diags, { Host := host, Username := username, Password := password1 }) }
        resp).logs =
      (Configure env2 NewClient ctx
        { Config := (diags, { Host := host, Username := username, Password := password2 }) }
        resp).logs ∧
    ("password", ({ Optional := true, Sensitive := true } : StringAttribute)) ∈ Schema := by
  have eh : ∀ env : String → String, (if (!host.IsNull) = true then host.ValueString
      else env "HASHICUPS_HOST") = precedence host (env "HASHICUPS_HOST") := by
    intro env; unfold precedence; cases host.IsNull <;> simp
  have eu : ∀ env : String → String, (if (!username.IsNull) = true then username.ValueString
      else env "HASHICUPS_USERNAME") = precedence username (env "HASHICUPS_USERNAME") := by
    intro env; unfold precedence; cases username.IsNull <;> simp
  have ep : ∀ (env : String → String) (password : TfString),
      (if (!password.IsNull) = true then password.ValueString
        else env "HASHICUPS_PASSWORD") = precedence password (env "HASHICUPS_PASSWORD") := by
    intro env password; unfold precedence; cases password.IsNull <;> simp
  refine ⟨?_, ?_, by decide⟩
  · simp only [Configure, eh, eu, ep, hknown1, hknown2, if_neg hp1, if_neg hp2,
      Bool.false_eq_true, if_false, ← hhost, ← husername]
    generalize precedence password1 (env1 "HASHICUPS_PASSWORD") = p1 at hclient ⊢
    generalize precedence password2 (env2 "HASHICUPS_PASSWORD") = p2 at hclient ⊢
    generalize NewClient (precedence host (env1 "HASHICUPS_HOST"))
      (precedence username (env1 "HASHICUPS_USERNAME")) p1 = r1 at hclient ⊢
    generalize NewClient (precedence host (env1 "HASHICUPS_HOST"))
      (precedence username (env1 "HASHICUPS_USERNAME")) p2 = r2 at hclient ⊢
    refine ite_else_congr (fun run : ConfigureRun κ => run.resp.Diagnostics) _ _ _ _ (fun _ => ?_)
    refine ite_else_congr (fun run : ConfigureRun κ => run.resp.Diagnostics) _ _ _ _ (fun _ => ?_)
    refine ite_else_congr (fun run : ConfigureRun κ => run.resp.Diagnostics) _ _ _ _ (fun _ => ?_)
    cases r1 <;> cases r2
    · simp only [failureText, Option.some.injEq] at hclient
      subst hclient
      rfl
    · exact Option.noConfusion hclient
    · exact Option.noConfusion hclient
    · rfl
  · simp only [Configure, eh, eu, ep, hknown1, hknown2, if_neg hp1, if_neg hp2,
      Bool.false_eq_true, if_false, ← hhost, ← husername]
    generalize precedence password1 (env1 "HASHICUPS_PASSWORD") = p1 at hclient ⊢
    generalize precedence password2 (env2 "HASHICUPS_PASSWORD") = p2 at hclient ⊢
    generalize NewClient (precedence host (env1 "HASHICUPS_HOST"))
      (precedence username (env1 "HASHICUPS_USERNAME")) p1 = r1 at hclient ⊢
    generalize NewClient (precedence host (env1 "HASHICUPS_HOST"))
      (precedence username (env1 "HASHICUPS_USERNAME")) p2 = r2 at hclient ⊢
    refine ite_else_congr (fun run : ConfigureRun κ => run.logs) _ _ _ _ (fun _ => ?_)
    refine ite_else_congr (fun run : ConfigureRun κ => run.logs) _ _ _ _ (fun _ => ?_)
    refine ite_else_congr (fun run : ConfigureRun κ => run.logs) _ _ _ _ (fun _ => ?_)
    cases r1 <;> cases r2
    · dsimp only
      rw [emit_masked_password _ p1, emit_masked_password _ p2]
    · exact Option.noConfusion hclient
    · exact Option.noConfusion hclient
    · dsimp only
      rw [emit_masked_password _ p1 "debug", emit_masked_password _ p2 "debug",
        emit_masked_password _ p1 "info", emit_masked_password _ p2 "info"]

/-- Witness for C12, amended: two runs with the configured passwords `hunter2` and `swordfish`
against a constructor that accepts both; the log entries are the same, and the entry emitted
before the construction carries the password field masked. -/
theorem Configure_output_independent_of_password_value_witness :
    (Configure sampleEnv sampleNewClient sampleCtx
        (configureRequestOf TfString.null TfString.null (TfString.known "hunter2"))
        freshConfigureResponse).logs =
      (Configure sampleEnv sampleNewClient sampleCtx
        (configureRequestOf TfString.null TfString.null (TfString.known "swordfish"))
        freshConfigureResponse).logs ∧
    (Configure sampleEnv sampleNewClient sampleCtx
        (configureRequestOf TfString.null TfString.null (TfString.known "hunter2"))
        freshConfigureResponse).logs.get? 1 =
      some { level := "debug", message := "Creating Hashicups Client",
             fields := [("hashicups_host", "http://env"), ("hashicups_username", "education"),
               ("hashicups_password", "***")] } :=
  ⟨(Configure_output_independent_of_password_value sampleEnv sampleEnv sampleNewClient
      sampleCtx [] TfString.null TfString.null (TfString.known "hunter2")
      (TfString.known "swordfish") freshConfigureResponse rfl rfl rfl rfl (by decide)
      (by decide) rfl).2.1, by decide⟩

end Hashicups
